import Mathlib

/-!
Verification of the dart-scoring engine of this repository
(`backend/src/modules/validator.ts`, `statsTracker.ts`, `matchManager.ts`).

The TypeScript modules are shallowly embedded: JS numbers holding integer
scores become `Int`, JS arrays become `List`, the JS `Map` of per-player
statistics becomes an association list, thrown exceptions become
`Except MMErr`, and the mutation sequences of the match manager become
functional state transformers.  Fields holding wall-clock values
(`timestamp`, `startTime`, `endTime`, throw ids from `Date.now()`) are
omitted: they are nondeterministic and no claim depends on them.
-/

namespace Darts

/-! ### validator.ts -/

/-- `ValidatorOptions` of validator.ts. -/
structure ValidatorOptions where
  doubleIn : Bool
  doubleOut : Bool
  masterOut : Bool
deriving Repr, DecidableEq

/-- `ValidationResult` of validator.ts.  `reason` and `newScore` are
optional fields of the TS interface. -/
structure ValidationResult where
  valid : Bool
  bust : Bool
  gameShot : Bool
  reason : Option String := none
  newScore : Option Int := none
deriving Repr, DecidableEq

/-- JS `s.startsWith(c)` for the one-character prefixes used by the
validator: test the first character of the string. -/
def strHeadIs (s : String) (c : Char) : Bool :=
  match s.data with
  | [] => false
  | c0 :: _ => c0 == c

/-- validator.ts `isDouble`: a segment label is a double when it starts
with `D`; the explicit `DBULL` disjunct of the source is kept although it
is subsumed. -/
def isDouble (segment : String) : Bool :=
  strHeadIs segment 'D' || segment == "DBULL"

/-- validator.ts `isTriple`. -/
def isTriple (segment : String) : Bool :=
  strHeadIs segment 'T'

/-- validator.ts `isMaster`. -/
def isMaster (segment : String) : Bool :=
  isDouble segment || isTriple segment

/-- validator.ts `validateX01Throw`, branch for branch.  The
`dartsThrown` parameter is present in the source signature and unused
there as well. -/
def validateX01Throw (currentScore : Int) (segment : String)
    (throwScore : Int) (dartsThrown : Nat) (options : ValidatorOptions) :
    ValidationResult :=
  -- Invalid score
  if throwScore < 0 then
    { valid := false, bust := false, gameShot := false,
      reason := some "Invalid score" }
  -- Double-in rule check (the source compares with the constant 501)
  else if options.doubleIn && currentScore == 501 && !(isDouble segment) then
    { valid := true, bust := false, gameShot := false,
      newScore := some currentScore,
      reason := some "Must start with a double" }
  else
    let newScore := currentScore - throwScore
    -- Check for bust
    if newScore < 0 then
      { valid := true, bust := true, gameShot := false,
        reason := some "Bust: score below 0" }
    -- Check for bust on 1
    else if newScore == 1 && options.doubleOut then
      { valid := true, bust := true, gameShot := false,
        reason := some "Bust: cannot finish on 1 with double out" }
    -- Check for game shot
    else if newScore == 0 then
      if options.doubleOut && !(isDouble segment) then
        { valid := true, bust := true, gameShot := false,
          reason := some "Bust: must finish on a double" }
      else if options.masterOut && !(isMaster segment) then
        { valid := true, bust := true, gameShot := false,
          reason := some "Bust: must finish on a double or triple" }
      else
        { valid := true, bust := false, gameShot := true,
          newScore := some 0, reason := some "Game shot!" }
    -- Valid throw
    else
      { valid := true, bust := false, gameShot := false,
        newScore := some newScore }

end Darts

namespace Darts

/-- C1: with `doubleOut` set and a throw score in the range a single dart
can produce (0 to 60), reaching exactly 1 is always a bust; reaching
exactly 0 is a bust on a non-double segment and a game shot on any double
segment (`DBULL`, the bullseye-as-double label, satisfies `isDouble`). -/
theorem c1_doubleOut_one_and_zero (currentScore throwScore : Int)
    (segment : String) (dartsThrown : Nat) (options : ValidatorOptions)
    (hout : options.doubleOut = true)
    (h0 : 0 ≤ throwScore) (h60 : throwScore ≤ 60) :
    ((currentScore - throwScore = 1 →
        (validateX01Throw currentScore segment throwScore dartsThrown options).bust = true ∧
        (validateX01Throw currentScore segment throwScore dartsThrown options).gameShot = false) ∧
     (currentScore - throwScore = 0 → isDouble segment = false →
        (validateX01Throw currentScore segment throwScore dartsThrown options).bust = true ∧
        (validateX01Throw currentScore segment throwScore dartsThrown options).gameShot = false) ∧
     (currentScore - throwScore = 0 → isDouble segment = true →
        (validateX01Throw currentScore segment throwScore dartsThrown options).bust = false ∧
        (validateX01Throw currentScore segment throwScore dartsThrown options).gameShot = true)) ∧
    isDouble "DBULL" = true := by
  have hts : ¬ throwScore < 0 := by omega
  have hnot501 : currentScore - throwScore = 1 ∨ currentScore - throwScore = 0 →
      ¬ (options.doubleIn && currentScore == 501 && !(isDouble segment)) = true := by
    intro h hc
    simp only [Bool.and_eq_true, beq_iff_eq] at hc
    omega
  refine ⟨⟨?_, ?_, ?_⟩, by decide⟩
  · intro h1
    unfold validateX01Throw
    rw [if_neg hts, if_neg (hnot501 (Or.inl h1))]
    simp only []
    rw [if_neg (by omega : ¬ currentScore - throwScore < 0),
      if_pos (by simp [h1, hout])]
    exact ⟨rfl, rfl⟩
  · intro h0' hnd
    unfold validateX01Throw
    rw [if_neg hts, if_neg (hnot501 (Or.inr h0'))]
    simp only []
    rw [if_neg (by omega : ¬ currentScore - throwScore < 0),
      if_neg (by simp [h0']),
      if_pos (by simp [h0']),
      if_pos (by simp [hout, hnd])]
    exact ⟨rfl, rfl⟩
  · intro h0' hd
    unfold validateX01Throw
    rw [if_neg hts, if_neg (hnot501 (Or.inr h0'))]
    simp only []
    rw [if_neg (by omega : ¬ currentScore - throwScore < 0),
      if_neg (by simp [h0']),
      if_pos (by simp [h0']),
      if_neg (by simp [hd]),
      if_neg (by simp [isMaster, hd])]
    exact ⟨rfl, rfl⟩

/-- Witness for C1 at concrete inputs: from 33, a 32 (`D16`) leaves 1 and
busts; from 50, `DBULL` for 50 is a game shot; from 20, `S20` for 20
reaches 0 on a non-double and busts. -/
theorem c1_doubleOut_one_and_zero_witness :
    (validateX01Throw 33 "D16" 32 0
      { doubleIn := false, doubleOut := true, masterOut := false }).bust = true ∧
    (validateX01Throw 50 "DBULL" 50 0
      { doubleIn := false, doubleOut := true, masterOut := false }).gameShot = true ∧
    (validateX01Throw 20 "S20" 20 0
      { doubleIn := false, doubleOut := true, masterOut := false }).bust = true := by
  refine ⟨?_, ?_, ?_⟩
  · exact ((c1_doubleOut_one_and_zero 33 32 "D16" 0
      { doubleIn := false, doubleOut := true, masterOut := false }
      rfl (by decide) (by decide)).1.1 (by decide)).1
  · exact ((c1_doubleOut_one_and_zero 50 50 "DBULL" 0
      { doubleIn := false, doubleOut := true, masterOut := false }
      rfl (by decide) (by decide)).1.2.2 (by decide) (by decide)).2
  · exact ((c1_doubleOut_one_and_zero 20 20 "S20" 0
      { doubleIn := false, doubleOut := true, masterOut := false }
      rfl (by decide) (by decide)).1.2.1 (by decide) (by decide)).1

end Darts

namespace Darts

/-- C7 counterexample: with `doubleIn` set in a 301 game, the opening
non-double throw at the starting score 301 is scored normally (the
source's double-in guard compares against the constant 501), so the
result's `newScore` is 281, not the unchanged 301 the claim requires. -/
theorem c7_counterexample :
    (validateX01Throw 301 "S20" 20 0
      { doubleIn := true, doubleOut := true, masterOut := false }).newScore = some 281 ∧
    (validateX01Throw 301 "S20" 20 0
      { doubleIn := true, doubleOut := true, masterOut := false }).newScore ≠ some 301 := by
  exact ⟨by decide, by decide⟩

/-- C7 amended: the zero-effect double-in rule applies exactly when the
current score equals the constant 501: with `doubleIn` set, current score
501 and a non-double segment, any non-negative throw is accepted with no
effect on the score. -/
theorem c7_doubleIn_zero_effect_at_501 (segment : String) (throwScore : Int)
    (dartsThrown : Nat) (options : ValidatorOptions)
    (hin : options.doubleIn = true) (hnd : isDouble segment = false)
    (h0 : 0 ≤ throwScore) :
    validateX01Throw 501 segment throwScore dartsThrown options =
      { valid := true, bust := false, gameShot := false,
        newScore := some 501, reason := some "Must start with a double" } := by
  unfold validateX01Throw
  rw [if_neg (by omega), if_pos (by simp [hin, hnd])]

/-- Witness for the amended C7 at segment `S20`, throw score 20. -/
theorem c7_doubleIn_zero_effect_witness :
    validateX01Throw 501 "S20" 20 0
      { doubleIn := true, doubleOut := true, masterOut := false } =
      { valid := true, bust := false, gameShot := false,
        newScore := some 501, reason := some "Must start with a double" } :=
  c7_doubleIn_zero_effect_at_501 "S20" 20 0
    { doubleIn := true, doubleOut := true, masterOut := false }
    rfl (by decide) (by decide)

/-- Body of validator.ts `getCheckoutSuggestion`.  The JS early-return
control flow of the two- and three-dart sections is expressed with
`Option.orElse` (`<|>`): each section yields `none` exactly when the
corresponding loop in the source runs to completion without returning, in
which case control falls through to the next section, and finally to the
odd-score fallback.  The source recurses on `score - 1` in the fallback;
here the self-call is routed through a structural fuel counter so the
definition is kernel-computable.  The fuel-exhausted arm is unreachable
for the fuel used by `getCheckoutSuggestion` below: the fallback only
fires for a positive odd score, whose predecessor is even and therefore
never recurses again. -/
def checkoutFuel : Nat -> Int -> Int -> Option (List String)
  | 0, _, _ => none
  | fuel + 1, score, dartsLeft =>
    -- Not a possible checkout
    if score > 170 \/ score <= 0 \/ score = 169 \/ score = 168 \/ score = 166 \/
        score = 165 \/ score = 163 \/ score = 162 \/ score = 159 then
      none
    -- Not enough darts
    else if (score > 40 /\ dartsLeft < 2) \/ (score > 110 /\ dartsLeft < 3) then
      none
    -- One dart checkouts (doubles)
    else if score <= 40 /\ score % 2 = 0 then
      some ["D" ++ toString (score / 2)]
    else
      -- Two dart checkouts
      let twoDart : Option (List String) :=
        if dartsLeft >= 2 then
          -- Special case for 50
          if score = 50 then
            some ["BULL"]
          else
            -- Check if we can do it with a single + double
            let remainder := score - 50
            if remainder > 0 /\ remainder <= 40 /\ remainder % 2 = 0 then
              some ["BULL", "D" ++ toString (remainder / 2)]
            else
              -- Try treble + double combinations
              ((List.range' 1 20).findSome? fun i =>
                let remainingAfterTreble := score - (i : Int) * 3
                if remainingAfterTreble > 0 /\ remainingAfterTreble <= 40 /\
                    remainingAfterTreble % 2 = 0 then
                  some ["T" ++ toString i, "D" ++ toString (remainingAfterTreble / 2)]
                else none) <|>
              -- Try single + double combinations
              ((List.range' 1 20).findSome? fun i =>
                let remainingAfterSingle := score - (i : Int)
                if remainingAfterSingle > 0 /\ remainingAfterSingle <= 40 /\
                    remainingAfterSingle % 2 = 0 then
                  some ["S" ++ toString i, "D" ++ toString (remainingAfterSingle / 2)]
                else none)
        else none
      -- Three dart checkouts
      let threeDart : Option (List String) :=
        if dartsLeft >= 3 then
          -- Special cases
          if score = 170 then some ["T20", "T20", "BULL"]
          else if score = 167 then some ["T20", "T19", "BULL"]
          else if score = 164 then some ["T20", "T18", "BULL"]
          else if score = 161 then some ["T20", "T17", "BULL"]
          else if score = 160 then some ["T20", "T20", "D20"]
          else if score = 158 then some ["T20", "T20", "D19"]
          else if score = 157 then some ["T20", "T19", "D20"]
          else if score = 156 then some ["T20", "T20", "D18"]
          else if score = 155 then some ["T20", "T19", "D19"]
          else if score = 154 then some ["T20", "T18", "D20"]
          else if score = 153 then some ["T20", "T19", "D18"]
          else if score = 152 then some ["T20", "T20", "D16"]
          else if score = 151 then some ["T20", "T17", "D20"]
          else if score = 150 then some ["T20", "T18", "D18"]
          else
            -- Generic approach for other scores (loops run downward)
            (List.range' 1 20).reverse.findSome? fun i =>
              let remainingAfterTreble := score - (i : Int) * 3
              if remainingAfterTreble > 60 /\ remainingAfterTreble <= 110 then
                (List.range' 1 20).reverse.findSome? fun j =>
                  let finalRemaining := remainingAfterTreble - (j : Int) * 3
                  if finalRemaining > 0 /\ finalRemaining <= 40 /\ finalRemaining % 2 = 0 then
                    some ["T" ++ toString i, "T" ++ toString j,
                      "D" ++ toString (finalRemaining / 2)]
                  else none
              else none
        else none
      twoDart <|> threeDart <|>
        -- Fallback for odd cases
        (if score % 2 = 1 then
          some ("S1" :: (checkoutFuel fuel (score - 1) (dartsLeft - 1)).getD [])
        else none)

/-- validator.ts `getCheckoutSuggestion`: the fuel `score.toNat + 1`
strictly bounds the recursion depth of the source (the fallback decreases
the score by 1 and scores at or below 0 return before recursing), so this
equals the source recursion on every input. -/
def getCheckoutSuggestion (score : Int) (dartsLeft : Int) : Option (List String) :=
  checkoutFuel (score.toNat + 1) score dartsLeft

end Darts

namespace Darts

/-- Decimal value of a digit string, for reading the labels the
suggestion function builds (`"20"` in `"D20"` etc.). -/
def segDigits (cs : List Char) : Nat :=
  cs.foldl (fun acc c => 10 * acc + (c.toNat - 48)) 0

/-- Point value of a segment label as used on a dart board: `BULL` is 50,
`Dn` is `2n`, `Tn` is `3n`, `Sn` is `n`. -/
def segValue (s : String) : Int :=
  if s == "BULL" then 50
  else
    match s.data with
    | [] => 0
    | c :: rest =>
      if c == 'D' then 2 * (segDigits rest : Int)
      else if c == 'T' then 3 * (segDigits rest : Int)
      else if c == 'S' then (segDigits rest : Int)
      else 0

/-- Total point value of a suggested path. -/
def pathScore (path : List String) : Int :=
  (path.map segValue).sum

/-- The last dart of the path is a double or the bullseye. -/
def endsOnDouble (path : List String) : Bool :=
  match path.getLast? with
  | some s => isDouble s || s == "BULL"
  | none => false

/-- A valid finishing path for `score` within `darts` darts: segment
values sum to the score, at most `darts` segments, final segment a double
or the bullseye. -/
def isFinishPath (score : Int) (darts : Int) (path : List String) : Bool :=
  pathScore path == score && ((path.length : Int) ≤ darts) && endsOnDouble path

/-- Bounded validity check used for the amended C8: for a score `n`, a
non-`none` three-darts-left suggestion sums to `n`, has at most 3
segments, and ends on a double or the bullseye. -/
def checkoutOk3 (n : Nat) : Bool :=
  match getCheckoutSuggestion (n : Int) 3 with
  | none => true
  | some path => isFinishPath (n : Int) 3 path

end Darts

namespace Darts

/-- The guard of getCheckoutSuggestion: bogey scores, scores above 170
and scores at or below 0 always yield `none`. -/
theorem checkout_none_of_guard (score dartsLeft : Int)
    (h : score > 170 ∨ score ≤ 0 ∨ score = 169 ∨ score = 168 ∨ score = 166 ∨
      score = 165 ∨ score = 163 ∨ score = 162 ∨ score = 159) :
    getCheckoutSuggestion score dartsLeft = none := by
  unfold getCheckoutSuggestion
  simp only [checkoutFuel]
  rw [if_pos h]

set_option maxRecDepth 20000 in
/-- Every score from 2 to 170 passes the three-darts-left validity check. -/
theorem checkoutOk3_all : ∀ n < 171, 2 ≤ n → checkoutOk3 n = true := by decide

/-- C8 counterexample: for score 1 (not a bogey, not above 170, not at or
below 0) the suggestion with 3 darts left is `["S1"]`, which is not a
valid finishing path: a single 1 neither ends on a double nor is a
checkout at all (score 1 is unreachable). -/
theorem c8_counterexample :
    getCheckoutSuggestion 1 3 = some ["S1"] ∧
    isFinishPath 1 3 ["S1"] = false := by
  exact ⟨by decide, by decide⟩

/-- C8 amended: the `none` guard holds as claimed; with 3 darts left and
score at least 2, every non-`none` suggestion is a valid finishing path
(sums to the score, at most 3 darts, ends on a double or the bullseye);
the two concrete suggestions of the claim hold.  (For score 1, and for
some odd scores with fewer than 3 darts left, the source returns
fallback paths that are not valid finishes; see the counterexample.) -/
theorem c8_checkout_suggestions_amended :
    (∀ score dartsLeft : Int,
      (score > 170 ∨ score ≤ 0 ∨ score = 169 ∨ score = 168 ∨ score = 166 ∨
        score = 165 ∨ score = 163 ∨ score = 162 ∨ score = 159) →
      getCheckoutSuggestion score dartsLeft = none) ∧
    (∀ score : Int, 2 ≤ score → ∀ path,
      getCheckoutSuggestion score 3 = some path → isFinishPath score 3 path = true) ∧
    getCheckoutSuggestion 170 3 = some ["T20", "T20", "BULL"] ∧
    getCheckoutSuggestion 40 1 = some ["D20"] := by
  refine ⟨checkout_none_of_guard, ?_, by decide, by decide⟩
  intro score h2 path hp
  by_cases hgt : score > 170
  · rw [checkout_none_of_guard score 3 (Or.inl hgt)] at hp
    cases hp
  · have hok := checkoutOk3_all score.toNat (by omega) (by omega)
    have hs : ((score.toNat : Int)) = score := Int.toNat_of_nonneg (by omega)
    unfold checkoutOk3 at hok
    rw [hs] at hok
    rw [hp] at hok
    exact hok

/-- Witness for the amended C8: 171 is out of range (`none`), and the
three-darts-left suggestion for 100 is `["T20","D20"]`, a valid finish. -/
theorem c8_checkout_suggestions_amended_witness :
    getCheckoutSuggestion 171 3 = none ∧
    isFinishPath 100 3 ["T20", "D20"] = true := by
  refine ⟨?_, ?_⟩
  · exact c8_checkout_suggestions_amended.1 171 3 (by norm_num)
  · exact c8_checkout_suggestions_amended.2.1 100 (by norm_num) ["T20", "D20"] (by decide)

end Darts

namespace Darts

/-! ### statsTracker.ts -/

/-- `PlayerStats` of statsTracker.ts.  The derived fields
(`averageThrow`, `checkoutPercentage`, `dartsPerLeg`) hold exact division
results, modelled in `ℚ`. -/
structure PlayerStats where
  dartsThrown : Nat := 0
  pointsScored : Int := 0
  legsWon : Nat := 0
  legDarts : List Nat := []
  busts : Nat := 0
  checkoutAttempts : Nat := 0
  checkoutSuccesses : Nat := 0
  highestCheckout : Int := 0
  tonPlus : Nat := 0
  tonFortyPlus : Nat := 0
  tonEightyPlus : Nat := 0
  averageThrow : ℚ := 0
  checkoutPercentage : ℚ := 0
  dartsPerLeg : ℚ := 0
  bestLegDarts : Nat := 0
deriving Repr, DecidableEq

/-- statsTracker.ts `initPlayerStats`: all counters zero. -/
def initPlayerStats : PlayerStats := {}

/-- The JS `Map.get`: first entry with the given key. -/
def mapGet (m : List (Nat × PlayerStats)) (k : Nat) : Option PlayerStats :=
  (m.find? (fun e => e.1 == k)).map (fun e => e.2)

/-- The JS `Map.set`: replace the value at an existing key (preserving
insertion order), or append a fresh entry. -/
def mapSet : List (Nat × PlayerStats) → Nat → PlayerStats → List (Nat × PlayerStats)
  | [], k, v => [(k, v)]
  | (k0, v0) :: rest, k, v =>
    if k0 == k then (k0, v) :: rest else (k0, v0) :: mapSet rest k v

/-- `MatchStats` of statsTracker.ts (wall-clock `startTime`/`endTime`
omitted). -/
structure MatchStats where
  players : List (Nat × PlayerStats)
  checkoutSuggestions : Bool
  legsPlayed : Nat
  currentLeg : Nat
  legsToWin : Nat
  legStarters : List Nat
deriving Repr, DecidableEq

/-- statsTracker.ts `initMatchStats`. -/
def initMatchStats (playerIds : List Nat) (legsToWin : Nat) : MatchStats :=
  { players := playerIds.foldl (fun m id => mapSet m id initPlayerStats) [],
    checkoutSuggestions := true,
    legsPlayed := 0,
    currentLeg := 1,
    legsToWin := legsToWin,
    legStarters := [] }

/-- statsTracker.ts `updatePlayerThrow`, mutation for mutation. -/
def updatePlayerThrow (stats : PlayerStats) (throwScore : Int) (isBust : Bool)
    (isCheckoutAttempt : Bool) (isSuccessfulCheckout : Bool)
    (checkoutValue : Int := 0) : PlayerStats :=
  -- Track darts thrown
  let s := { stats with dartsThrown := stats.dartsThrown + 1 }
  -- Add points if not a bust
  let s := if !isBust then { s with pointsScored := s.pointsScored + throwScore } else s
  -- Track busts
  let s := if isBust then { s with busts := s.busts + 1 } else s
  -- Track checkout attempts
  let s := if isCheckoutAttempt then
      { s with checkoutAttempts := s.checkoutAttempts + 1 } else s
  -- Track successful checkouts and highest checkout
  let s := if isSuccessfulCheckout then
      let s := { s with checkoutSuccesses := s.checkoutSuccesses + 1 }
      if checkoutValue > s.highestCheckout then
        { s with highestCheckout := checkoutValue } else s
    else s
  -- Calculate averages
  let s := { s with averageThrow :=
      if s.dartsThrown > 0 then ((s.pointsScored : ℚ) / (s.dartsThrown : ℚ)) * 3 else 0 }
  { s with checkoutPercentage :=
      if s.checkoutAttempts > 0 then
        ((s.checkoutSuccesses : ℚ) / (s.checkoutAttempts : ℚ)) * 100 else 0 }

/-- statsTracker.ts `updatePlayerTurn`: ton-tier classification of a
completed turn's total. -/
def updatePlayerTurn (stats : PlayerStats) (turnScore : Int) : PlayerStats :=
  if turnScore ≥ 100 ∧ turnScore < 140 then
    { stats with tonPlus := stats.tonPlus + 1 }
  else if turnScore ≥ 140 ∧ turnScore < 180 then
    { stats with tonFortyPlus := stats.tonFortyPlus + 1 }
  else if turnScore = 180 then
    { stats with tonEightyPlus := stats.tonEightyPlus + 1 }
  else stats

/-- statsTracker.ts `updateLegWin`. -/
def updateLegWin (stats : PlayerStats) (dartsUsedInLeg : Nat) : PlayerStats :=
  let s := { stats with legsWon := stats.legsWon + 1 }
  let s := { s with legDarts := s.legDarts ++ [dartsUsedInLeg] }
  let s := if s.bestLegDarts = 0 ∨ dartsUsedInLeg < s.bestLegDarts then
      { s with bestLegDarts := dartsUsedInLeg } else s
  { s with dartsPerLeg :=
      if s.legsWon > 0 then ((s.legDarts.sum : ℚ) / (s.legsWon : ℚ)) else 0 }

/-- statsTracker.ts `isCheckoutPosition`. -/
def isCheckoutPosition (score : Int) : Bool :=
  if score ≤ 170 ∧ score ≠ 169 ∧ score ≠ 168 ∧ score ≠ 166 ∧ score ≠ 165 ∧
      score ≠ 163 ∧ score ≠ 162 ∧ score ≠ 159 then true else false

end Darts

namespace Darts

/-! ### matchManager.ts -/

/-- The fields of `PlayerModel` the match manager copies into its own
`Player` records (display/stats metadata omitted). -/
structure PlayerModel where
  id : Nat
  name : String
deriving Repr, DecidableEq

/-- `ThrowData` as recorded by `processThrow` (wall-clock timestamp,
db ids and optional coordinates omitted). -/
structure ThrowData where
  playerId : Nat
  round : Nat
  throwIndex : Nat
  segment : String
  score : Int
deriving Repr, DecidableEq

/-- `Player` of matchManager.ts (the static display `stats` blob copied
from the player model is omitted: it is never read or written by the
operations modelled here). -/
structure Player where
  id : Nat
  name : String
  position : Nat
  score : Int
  isActive : Bool
  isWinner : Bool
  history : List ThrowData
  currentTurn : List ThrowData
  originalScore : Int
  dartsThrown : Nat
  legsWon : Nat
deriving Repr, DecidableEq

/-- The match states of matchManager.ts. -/
inductive MatchState where
  | pending | warmup | bullshot | active | completed | setup | playing | finished
deriving Repr, DecidableEq

/-- `ValidatorSettingsOptions` of matchManager.ts. -/
structure ValidatorSettingsOptions extends ValidatorOptions where
  startingScore : Int
  checkoutSuggestions : Bool
deriving Repr, DecidableEq

/-- `Match` of matchManager.ts (persistence bookkeeping `id`,
`timestamp`, `isAutosaved` omitted). -/
structure Match where
  boardId : Nat
  mode : String
  players : List Player
  legsToWin : Nat
  currentLeg : Nat
  legStarters : List Nat
  activePlayerIndex : Nat
  round : Nat
  state : MatchState
  settings : ValidatorSettingsOptions
  stats : MatchStats
deriving Repr, DecidableEq

/-- `ThrowResults` of matchManager.ts. -/
structure ThrowResults where
  throwData : ThrowData
  validationResult : ValidationResult
  bust : Bool
  gameShot : Bool
  legWon : Bool
  matchWon : Bool
  checkoutSuggestion : Option (List String)
deriving Repr, DecidableEq

/-- The synchronous failures thrown by the match manager. -/
inductive MMErr where
  | alreadyInProgress
  | typeErrorUndefined
  | invalidState
  | playerNotFound
  | notYourTurn
  | turnComplete
deriving Repr, DecidableEq

/-- Placeholder for out-of-range array reads; every modelled flow keeps
indices in range (established by the reachability invariant). -/
def dummyPlayer : Player :=
  { id := 0, name := "", position := 0, score := 0, isActive := false,
    isWinner := false, history := [], currentTurn := [], originalScore := 0,
    dartsThrown := 0, legsWon := 0 }

/-- JS `players.findIndex(p => p.id === playerId)` (as `Option`). -/
def findPlayerIdx (players : List Player) (pid : Nat) : Option Nat :=
  players.findIdx? (fun p => p.id == pid)

/-- JS `findIndex` with its `-1` not-found convention, used where the
source arithmetises over the result (`setupNextLeg`). -/
def intFindIdx (players : List Player) (pid : Nat) : Int :=
  match players.findIdx? (fun p => p.id == pid) with
  | some i => (i : Int)
  | none => -1

/-- JS array index assignment `l[i] = v`.  In every modelled flow
`i ≤ l.length`, so the sparse-array case does not arise. -/
def listWrite {α : Type} (l : List α) (i : Nat) (v : α) : List α :=
  if i < l.length then l.set i v else l ++ [v]

/-- The optional `settings` argument of `createMatch`
(`Partial<ValidatorSettingsOptions>`). -/
structure PartialSettings where
  doubleIn : Option Bool := none
  doubleOut : Option Bool := none
  masterOut : Option Bool := none
  startingScore : Option Int := none
  checkoutSuggestions : Option Bool := none
deriving Repr, DecidableEq

/-- createMatch's starting-score resolution: for mode `x01`, a requested
value among 301/501/701/901 is kept, anything else falls back to 501. -/
def resolveStartingScore (mode : String) (settings : PartialSettings) : Int :=
  if mode == "x01" then
    let x01Value := settings.startingScore.getD 501
    if x01Value = 301 ∨ x01Value = 501 ∨ x01Value = 701 ∨ x01Value = 901 then
      x01Value
    else 501
  else 501

/-- createMatch's construction of the validator options (JS truthiness
defaults: `doubleIn || false`, `doubleOut === undefined ? true : !!`,
`masterOut || false`, `checkoutSuggestions !== false`). -/
def resolveValidatorOptions (mode : String) (settings : PartialSettings) :
    ValidatorSettingsOptions :=
  { doubleIn := settings.doubleIn.getD false,
    doubleOut := match settings.doubleOut with | none => true | some b => b,
    masterOut := settings.masterOut.getD false,
    startingScore := resolveStartingScore mode settings,
    checkoutSuggestions := !(settings.checkoutSuggestions == some false) }

/-- matchManager.ts `initializePlayers`.  The source reads
`this.settings.startingScore` twice, but the `MatchManager` class never
declares or assigns a `settings` field, so the read is of a property of
`undefined` and throws a `TypeError` at run time (it is also a TS
compile error).  The class field is therefore modelled as an explicit
`Option ValidatorSettingsOptions` argument: `none` is the field as the
source actually has it (C9 records the resulting failure); supplying
`some` of the options resolved in `createMatch` is the evident intent and
is what the gameplay analysis uses. -/
def initializePlayers (thisSettings : Option ValidatorSettingsOptions)
    (playerModels : List PlayerModel) : Option (List Player) :=
  match thisSettings with
  | none => none
  | some s =>
    some (playerModels.mapIdx fun index pm =>
      { id := pm.id, name := pm.name,
        position := index + 1,
        score := s.startingScore,
        isActive := index == 0,
        isWinner := false,
        history := [],
        currentTurn := [],
        originalScore := s.startingScore,
        dartsThrown := 0,
        legsWon := 0 })

/-- matchManager.ts `createMatch`, parameterised (like
`initializePlayers`) over what the `this.settings` read yields.
`loaded` is the manager's current `this.match`.  Note the source
performs no minimum-player-count validation; an empty player list fails
only on the `setupPlayers[0].id` read (a `TypeError`, modelled via
`head?`). -/
def createMatchWith (thisSettings : Option ValidatorSettingsOptions)
    (loaded : Option Match) (boardId : Nat) (players : List PlayerModel)
    (mode : String) (legsToWin : Nat) (settings : PartialSettings) :
    Except MMErr Match :=
  if loaded.isSome then .error .alreadyInProgress
  else
    let validatorOptions := resolveValidatorOptions mode settings
    match initializePlayers thisSettings players with
    | none => .error .typeErrorUndefined
    | some setupPlayers =>
      match setupPlayers.head? with
      | none => .error .typeErrorUndefined
      | some first =>
        .ok { boardId := boardId, mode := mode, players := setupPlayers,
              legsToWin := legsToWin, currentLeg := 1, activePlayerIndex := 0,
              state := .pending, settings := validatorOptions,
              stats := initMatchStats (setupPlayers.map (fun p => p.id)) legsToWin,
              legStarters := [first.id], round := 1 }

/-- matchManager.ts `createMatch` as written: the `this.settings` read
yields `undefined`. -/
def createMatch (loaded : Option Match) (boardId : Nat)
    (players : List PlayerModel) (mode : String) (legsToWin : Nat)
    (settings : PartialSettings) : Except MMErr Match :=
  createMatchWith none loaded boardId players mode legsToWin settings

/-- `createMatch` with the undefined `this.settings` read repaired to the
options resolved from the arguments — the evident intent of the source
(C9 records the defect); used for the gameplay claims. -/
def createMatchRepaired (loaded : Option Match) (boardId : Nat)
    (players : List PlayerModel) (mode : String) (legsToWin : Nat)
    (settings : PartialSettings) : Except MMErr Match :=
  createMatchWith (some (resolveValidatorOptions mode settings)) loaded
    boardId players mode legsToWin settings

/-- matchManager.ts `startWarmup`. -/
def startWarmup (m : Match) : Except MMErr Match :=
  if m.state ≠ .pending ∧ m.state ≠ .warmup then .error .invalidState
  else .ok { m with state := .warmup }

/-- matchManager.ts `endWarmup`. -/
def endWarmup (m : Match) : Except MMErr Match :=
  if m.state ≠ .warmup then .error .invalidState
  else .ok { m with state := .bullshot }

/-- matchManager.ts `setBullWinner`. -/
def setBullWinner (m : Match) (playerId : Nat) : Except MMErr Match :=
  if m.state ≠ .bullshot then .error .invalidState
  else
    match findPlayerIdx m.players playerId with
    | none => .error .playerNotFound
    | some playerIndex =>
      .ok { m with
        legStarters := listWrite m.legStarters 0 playerId,
        players := m.players.map (fun p => { p with isActive := p.id == playerId }),
        activePlayerIndex := playerIndex,
        state := .active }

/-- matchManager.ts `getPlayerLegWins` (reads the Statistics record). -/
def getPlayerLegWins (m : Match) (playerId : Nat) : Nat :=
  match mapGet m.stats.players playerId with
  | some ps => ps.legsWon
  | none => 0

/-- matchManager.ts `moveToNextPlayer`: commit the turn into statistics
and history, rotate the active player, bump the round on wrap-around. -/
def moveToNextPlayer (m : Match) : Match :=
  let currentPlayer := m.players.getD m.activePlayerIndex dummyPlayer
  -- Calculate turn score and update stats
  let turnScore : Int := (currentPlayer.currentTurn.map (fun t => t.score)).sum
  let stats1 :=
    match mapGet m.stats.players currentPlayer.id with
    | some ps =>
      { m.stats with
        players := mapSet m.stats.players currentPlayer.id (updatePlayerTurn ps turnScore) }
    | none => m.stats
  -- Move throws from current turn to history, reset originalScore,
  -- deactivate
  let currentPlayer :=
    { currentPlayer with
        history := currentPlayer.history ++ currentPlayer.currentTurn,
        currentTurn := [],
        originalScore := currentPlayer.score,
        isActive := false }
  let players1 := m.players.set m.activePlayerIndex currentPlayer
  -- Move to the next player, increment the round on wrap-around
  let newIdx := (m.activePlayerIndex + 1) % players1.length
  let round1 := if newIdx == 0 then m.round + 1 else m.round
  let players2 :=
    players1.set newIdx { (players1.getD newIdx dummyPlayer) with isActive := true }
  { m with
    players := players2,
    activePlayerIndex := newIdx,
    round := round1,
    stats := stats1 }

/-- matchManager.ts `setupNextLeg`: bump the leg, pick the next starter
by round-robin from the previous leg's starter, reset every player's
score and turn state (history is not touched by the source). -/
def setupNextLeg (m : Match) : Match :=
  let currentLeg1 := m.currentLeg + 1
  let stats1 := { m.stats with
    currentLeg := currentLeg1,
    legsPlayed := m.stats.legsPlayed + 1 }
  -- Determine the next leg starter (JS findIndex returns -1 on a missing
  -- or out-of-range previous starter)
  let lastStarterIndex : Int :=
    match m.legStarters.get? (currentLeg1 - 2) with
    | some sid => intFindIdx m.players sid
    | none => -1
  let nextStarterIndex := ((lastStarterIndex + 1) % (m.players.length : Int)).toNat
  let nextStarterId := (m.players.getD nextStarterIndex dummyPlayer).id
  let legStarters1 := listWrite m.legStarters (currentLeg1 - 1) nextStarterId
  -- Reset player scores
  let players1 := m.players.map (fun p =>
    { p with
      score := m.settings.startingScore,
      originalScore := m.settings.startingScore,
      isActive := p.id == nextStarterId,
      isWinner := false,
      currentTurn := [],
      dartsThrown := 0 })
  { m with
    currentLeg := currentLeg1,
    stats := stats1,
    legStarters := legStarters1,
    players := players1,
    activePlayerIndex := nextStarterIndex,
    round := 1 }

/-- The post-guard part of matchManager.ts `processThrow` (everything
after the state/turn/dart-count checks, which cannot throw): validation,
recording the dart, the bust/game-shot mutations, then the shared
turn-end / suggestion logic.  `playerIndex` is the index the guards
established (equal to `m.activePlayerIndex`). -/
def processThrowBody (m : Match) (playerIndex playerId : Nat)
    (segment : String) (score : Int) : Match × ThrowResults :=
  let player := m.players.getD playerIndex dummyPlayer
  let dartsInTurn := player.currentTurn.length
  -- Validate the throw based on game rules
  let vr := validateX01Throw player.score segment score dartsInTurn
    m.settings.toValidatorOptions
  let throwData : ThrowData :=
    { playerId := playerId, round := m.round,
      throwIndex := dartsInTurn + 1, segment := segment, score := score }
  -- Add throw to player's current turn
  let player := { player with
    currentTurn := player.currentTurn ++ [throwData],
    dartsThrown := player.dartsThrown + 1 }
  -- The bust / game-shot mutation block, producing the mutated match and
  -- the four flags
  let step : Match × Bool × Bool × Bool × Bool :=
    if vr.valid && !vr.bust then
      -- Update player's score if valid
      let player := { player with score := vr.newScore.getD player.score }
      if vr.gameShot then
        -- Update stats, mark winner
        let stats1 :=
          match mapGet m.stats.players playerId with
          | some ps =>
            { m.stats with
              players := mapSet m.stats.players playerId (updateLegWin ps player.dartsThrown) }
          | none => m.stats
        let player := { player with isWinner := true }
        let m1 := { m with
          players := m.players.set playerIndex player,
          stats := stats1 }
        if getPlayerLegWins m1 playerId ≥ m1.legsToWin then
          ({ m1 with state := .completed }, false, true, true, true)
        else
          (setupNextLeg m1, false, true, true, false)
      else
        ({ m with players := m.players.set playerIndex player },
          false, false, false, false)
    else if vr.bust then
      -- Reset player's score for the turn, update bust stats
      let player := { player with score := player.originalScore }
      let stats1 :=
        match mapGet m.stats.players playerId with
        | some ps =>
          { m.stats with
            players := mapSet m.stats.players playerId { ps with busts := ps.busts + 1 } }
        | none => m.stats
      ({ m with players := m.players.set playerIndex player, stats := stats1 },
        true, false, false, false)
    else
      -- invalid throw: the dart is still recorded
      ({ m with players := m.players.set playerIndex player },
        false, false, false, false)
  match step with
  | (m1, bust, gameShot, legWon, matchWon) =>
    -- If it's the third dart or a leg was won, move to the next player;
    -- otherwise optionally suggest a checkout
    if dartsInTurn = 2 ∨ legWon then
      let m2 := if !legWon then moveToNextPlayer m1 else m1
      (m2, { throwData := throwData, validationResult := vr,
             bust := bust, gameShot := gameShot, legWon := legWon,
             matchWon := matchWon, checkoutSuggestion := none })
    else
      let curScore := (m1.players.getD playerIndex dummyPlayer).score
      let suggestion :=
        if m1.settings.checkoutSuggestions && isCheckoutPosition curScore then
          getCheckoutSuggestion curScore (3 - ((dartsInTurn : Int) + 1))
        else none
      (m1, { throwData := throwData, validationResult := vr,
             bust := bust, gameShot := gameShot, legWon := legWon,
             matchWon := matchWon, checkoutSuggestion := suggestion })

/-- matchManager.ts `processThrow`: the guards, then `processThrowBody`. -/
def processThrow (m : Match) (playerId : Nat) (segment : String)
    (score : Int) : Except MMErr (Match × ThrowResults) :=
  if m.state ≠ .active then .error .invalidState
  else
    match findPlayerIdx m.players playerId with
    | none => .error .playerNotFound
    | some playerIndex =>
      -- Check if it's this player's turn
      if playerIndex ≠ m.activePlayerIndex then .error .notYourTurn
      else
        -- Check if player has already thrown 3 darts
        if (m.players.getD playerIndex dummyPlayer).currentTurn.length ≥ 3 then
          .error .turnComplete
        else
          .ok (processThrowBody m playerIndex playerId segment score)

/-- matchManager.ts `manualPlayerSwitch`: unconditional rotation. -/
def manualPlayerSwitch (m : Match) : Match :=
  moveToNextPlayer m

/-- matchManager.ts `endMatch` (the optional winner id; a JS falsy id 0
behaves like absence, matching `Option` here since ids are positive
database keys). -/
def endMatch (m : Match) (winningPlayerId : Option Nat) : Match :=
  let m1 :=
    match winningPlayerId with
    | some wid =>
      match findPlayerIdx m.players wid with
      | some i =>
        { m with
          players := m.players.set i { (m.players.getD i dummyPlayer) with isWinner := true } }
      | none => m
    | none => m
  { m1 with state := .completed }

end Darts

namespace Darts

/-! ### Concrete fixtures used by counterexamples and witnesses -/

/-- Fixture player models (ids are database primary keys). -/
def pm1 : PlayerModel := { id := 1, name := "A" }

/-- Second fixture player model. -/
def pm2 : PlayerModel := { id := 2, name := "B" }

/-- Placeholder match for total extraction from `Except`. -/
def dummyMatch : Match :=
  { boardId := 0, mode := "", players := [], legsToWin := 0, currentLeg := 0,
    legStarters := [], activePlayerIndex := 0, round := 0, state := .pending,
    settings := { doubleIn := false, doubleOut := false, masterOut := false,
                  startingScore := 0, checkoutSuggestions := false },
    stats := initMatchStats [] 0 }

/-- Placeholder throw results for total extraction from `Except`. -/
def dummyResults : ThrowResults :=
  { throwData := { playerId := 0, round := 0, throwIndex := 0, segment := "", score := 0 },
    validationResult := { valid := false, bust := false, gameShot := false },
    bust := false, gameShot := false, legWon := false, matchWon := false,
    checkoutSuggestion := none }

/-- Fixture settings: a 301 double-out game. -/
def startSettings : PartialSettings := { startingScore := some 301 }

/-- A two-player 301 match (first to 2 legs) taken through
`createMatch` (repaired), warmup, and the bull winner, into `active`. -/
def startedMatch : Except MMErr Match := do
  let m ← createMatchRepaired none 1 [pm1, pm2] "x01" 2 startSettings
  let m ← startWarmup m
  let m ← endWarmup m
  setBullWinner m 1

/-- Fold a list of `(playerId, segment, score)` throws through
`processThrow`. -/
def runThrows (m : Match) (ts : List (Nat × String × Int)) : Except MMErr Match :=
  ts.foldlM (fun acc t => (processThrow acc t.1 t.2.1 t.2.2).map Prod.fst) m

/-- Fourteen throws leaving player 1 at score 50 with `T20 T20` already
in the current turn (turn total so far 120), player 2 at 295. -/
def legWinPrefix : List (Nat × String × Int) :=
  [(1, "T20", 60), (1, "S20", 20), (1, "S20", 20),
   (2, "S1", 1), (2, "S1", 1), (2, "S1", 1),
   (1, "S20", 20), (1, "S10", 10), (1, "S1", 1),
   (2, "S1", 1), (2, "S1", 1), (2, "S1", 1),
   (1, "T20", 60), (1, "T20", 60)]

/-- The leg-winning throw: player 1 finishes 50 with `DBULL` as the third
dart of a 170 turn. -/
def legWinRun : Except MMErr (Match × ThrowResults) := do
  let m ← startedMatch
  let m ← runThrows m legWinPrefix
  processThrow m 1 "DBULL" 50

end Darts

namespace Darts

/-- Number of players flagged active. -/
def activeCount (m : Match) : Nat :=
  (m.players.filter (fun p => p.isActive)).length

/-- Sum of the `Player.legsWon` fields (the match manager's player
records). -/
def playersLegsWonSum (m : Match) : Nat :=
  (m.players.map (fun p => p.legsWon)).sum

/-- Sum of the `legsWon` counters of the per-player Statistics records. -/
def statsLegsWonSum (m : Match) : Nat :=
  (m.stats.players.map (fun e => e.2.legsWon)).sum

/-- C3 counterexample: a freshly created match is in state `pending` and
already has an active player (`initializePlayers` marks the first player
active at creation), contradicting "no player has `isActive = true` in
any state other than `active`". -/
theorem c3_counterexample :
    (createMatchRepaired none 1 [pm1, pm2] "x01" 3 {}).map
      (fun m => (m.state, activeCount m)) = .ok (.pending, 1) := rfl

/-- One accepted throw (player 1, `T20` for 60) on the started match. -/
def oneThrowRun : Except MMErr (Match × ThrowResults) := do
  let m ← startedMatch
  processThrow m 1 "T20" 60

/-- C4 counterexample: the throw is accepted (valid, no bust), yet the
thrower's Statistics record afterwards is still the untouched initial
record — `dartsThrown` is 0, not 1, and `pointsScored` is 0, not 60:
`processThrow` never invokes the per-throw accumulator
`updatePlayerThrow`. -/
theorem c4_counterexample :
    (oneThrowRun.map fun x =>
      (x.2.validationResult.valid, x.2.bust, mapGet x.1.stats.players 1)) =
      .ok (true, false, some initPlayerStats) := rfl

/-- C5 counterexample: player 1 wins the leg on the third dart of a
170-point turn (`T20 T20 DBULL`).  The turn ends, but the three throws
of the winning turn are discarded rather than moved to history (history
still holds only the 6 earlier throws), and the 170 turn total is never
committed to the ton-tier classification (`tonFortyPlus` stays 0):
`setupNextLeg` clears `currentTurn` without the commit step that
`moveToNextPlayer` performs. -/
theorem c5_counterexample :
    (legWinRun.map fun x =>
      (x.2.legWon,
       (x.1.players.getD 0 dummyPlayer).history.length,
       (x.1.players.getD 0 dummyPlayer).currentTurn.length,
       (mapGet x.1.stats.players 1).map (fun s => s.tonFortyPlus))) =
      .ok (true, 6, 0, some 0) := rfl

/-- C6 counterexample: after player 1's game shot the match is still
active with `currentLeg = 2`, yet the sum of the players' `legsWon`
fields is 0, not `currentLeg - 1 = 1`: the game shot increments the
Statistics record's `legsWon`, never the `Player.legsWon` field. -/
theorem c6_counterexample :
    (legWinRun.map fun x => (x.1.state, x.1.currentLeg, playersLegsWonSum x.1)) =
      .ok (.active, 2, 0) := rfl

/-- C9: evaluating `createMatch` at the failing input.  A well-formed
two-player call with no match loaded does not return a pending match: it
fails with the `TypeError` from reading `this.settings.startingScore`
(the class never declares a `settings` field).  Even with that read
repaired, a one-player list is not rejected (no minimum-player
validation exists).  The already-in-progress guard, by contrast, behaves
as claimed. -/
theorem c9_createMatch_failing_input :
    createMatch none 1 [pm1, pm2] "x01" 3 {} = .error .typeErrorUndefined ∧
    (createMatchRepaired none 1 [pm1] "x01" 3 {}).isOk = true ∧
    createMatch (some dummyMatch) 1 [pm1, pm2] "x01" 3 {} = .error .alreadyInProgress := by
  exact ⟨rfl, rfl, rfl⟩

end Darts

namespace Darts

/-! ### Helper lemmas on lists and the stats map -/

/-- An index found by `findPlayerIdx` is in range. -/
theorem findPlayerIdx_lt_length {players : List Player} {pid i : Nat}
    (h : findPlayerIdx players pid = some i) : i < players.length :=
  (List.findIdx?_eq_some_iff_findIdx_eq.mp h).1

/-- `getD` after `set` at the same in-range index. -/
theorem getD_set_self {α} (l : List α) (i : Nat) (v d : α) (h : i < l.length) :
    (l.set i v).getD i d = v := by
  simp [List.getD_eq_getElem?_getD, List.getElem?_set_self', List.getElem?_eq_getElem h]

/-- `getD` after `set` at a different index. -/
theorem getD_set_ne {α} (l : List α) (i j : Nat) (v d : α) (h : i ≠ j) :
    (l.set i v).getD j d = l.getD j d := by
  simp [List.getD_eq_getElem?_getD, List.getElem?_set_ne h]

/-- `getD` at an in-range index is the element. -/
theorem getD_elem {α} (l : List α) (i : Nat) (d : α) (h : i < l.length) :
    l.getD i d = l.get ⟨i, h⟩ := by
  simp [List.getD_eq_getElem?_getD, List.getElem?_eq_getElem h]

/-- The element at a found index satisfies the predicate. -/
theorem findPlayerIdx_id {players : List Player} {pid i : Nat} (d : Player)
    (h : findPlayerIdx players pid = some i) : (players.getD i d).id = pid := by
  obtain ⟨hlt, hp, -⟩ := List.findIdx?_eq_some_iff_getElem.mp h
  rw [getD_elem players i d hlt]
  simpa using hp

/-- `mapGet` after `mapSet` at the written key. -/
theorem mapGet_mapSet_self (l : List (Nat × PlayerStats)) (k : Nat) (v : PlayerStats) :
    mapGet (mapSet l k v) k = some v := by
  induction l with
  | nil => simp [mapGet, mapSet, List.find?]
  | cons e rest ih =>
    by_cases hk : e.1 = k
    · simp [mapGet, mapSet, hk, List.find?]
    · have hk' : (e.1 == k) = false := by simp [hk]
      simpa [mapGet, mapSet, hk', List.find?] using ih

/-- `mapGet` after `mapSet` at a different key. -/
theorem mapGet_mapSet_ne (l : List (Nat × PlayerStats)) (k k' : Nat) (v : PlayerStats)
    (h : k ≠ k') : mapGet (mapSet l k v) k' = mapGet l k' := by
  induction l with
  | nil => simp [mapGet, mapSet, List.find?, (by simpa using h : (k == k') = false)]
  | cons e rest ih =>
    obtain ⟨k0, v0⟩ := e
    by_cases hk : k0 = k
    · subst hk
      have hne : (k0 == k') = false := by simpa using h
      simp [mapGet, mapSet, List.find?, hne]
    · have hk' : (k0 == k) = false := by simp [hk]
      by_cases he : k0 = k'
      · subst he
        simp [mapGet, mapSet, List.find?, hk']
      · have he' : (k0 == k') = false := by simp [he]
        simpa [mapGet, mapSet, List.find?, hk', he'] using ih

/-- Sum of `legsWon` over the raw stats map entries. -/
def legsSumOf (l : List (Nat × PlayerStats)) : Nat :=
  (l.map (fun e => e.2.legsWon)).sum

/-- Replacing the entry at a present key shifts the `legsWon` sum by the
difference of old and new value. -/
theorem legsSumOf_mapSet (l : List (Nat × PlayerStats)) (k : Nat)
    (s v : PlayerStats) (h : mapGet l k = some s) :
    legsSumOf (mapSet l k v) + s.legsWon = legsSumOf l + v.legsWon := by
  induction l with
  | nil => simp [mapGet, List.find?] at h
  | cons e rest ih =>
    obtain ⟨k0, v0⟩ := e
    by_cases hk : k0 = k
    · have hk' : (k0 == k) = true := by simp [hk]
      simp only [mapGet, List.find?, hk', Option.map_some'] at h
      cases h
      simp [mapSet, hk', legsSumOf]
      omega
    · have hk' : (k0 == k) = false := by simp [hk]
      simp only [mapGet, List.find?, hk'] at h
      have hrec := ih (by simpa [mapGet] using h)
      simp only [legsSumOf] at hrec
      simp [mapSet, hk', legsSumOf]
      omega

end Darts

namespace Darts

/-- When the guards pass (active state, the active player's own turn,
fewer than 3 darts thrown), `processThrow` succeeds with the body. -/
theorem processThrow_ok (m : Match) (playerId : Nat) (segment : String) (score : Int)
    (hstate : m.state = .active)
    (hfind : findPlayerIdx m.players playerId = some m.activePlayerIndex)
    (hd3 : (m.players.getD m.activePlayerIndex dummyPlayer).currentTurn.length < 3) :
    processThrow m playerId segment score =
      .ok (processThrowBody m m.activePlayerIndex playerId segment score) := by
  unfold processThrow
  rw [if_neg (by simp [hstate]), hfind]
  dsimp only
  rw [if_neg (by simp), if_neg (by omega)]

end Darts

namespace Darts

/-- `getD` at an in-range index, `getElem` form. -/
theorem getD_eq_getElem' {α} (l : List α) (i : Nat) (d : α) (h : i < l.length) :
    l.getD i d = l[i] := by
  simp [List.getD_eq_getElem?_getD, List.getElem?_eq_getElem h]

/-- C2: an accepted throw by the active player whose score minus the
throw score is negative is flagged a bust, and the player's score
immediately after the call is their `originalScore` (the score at the
start of the turn), whether or not the bust dart was the third of the
turn.  The throw score is bounded by 60, the most a single dart can
score, which keeps the hard-coded 501 double-in branch (see C7) out of
the way. -/
theorem c2_negative_newScore_busts
    (m : Match) (playerId : Nat) (segment : String) (score : Int)
    (m' : Match) (r : ThrowResults)
    (hstate : m.state = .active)
    (hfind : findPlayerIdx m.players playerId = some m.activePlayerIndex)
    (hdarts : (m.players.getD m.activePlayerIndex dummyPlayer).currentTurn.length < 3)
    (hneg : (m.players.getD m.activePlayerIndex dummyPlayer).score - score < 0)
    (h0 : 0 ≤ score) (h60 : score ≤ 60)
    (hok : processThrow m playerId segment score = .ok (m', r)) :
    r.bust = true ∧
    (m'.players.getD m.activePlayerIndex dummyPlayer).score =
      (m.players.getD m.activePlayerIndex dummyPlayer).originalScore := by
  have hlt : m.activePlayerIndex < m.players.length := findPlayerIdx_lt_length hfind
  set p := m.players.getD m.activePlayerIndex dummyPlayer with hpdef
  have hvr : validateX01Throw p.score segment score p.currentTurn.length
      m.settings.toValidatorOptions =
      { valid := true, bust := true, gameShot := false,
        reason := some "Bust: score below 0", newScore := none } := by
    unfold validateX01Throw
    rw [if_neg (by omega : ¬ score < 0),
      if_neg (by
        intro hc
        simp only [Bool.and_eq_true, beq_iff_eq] at hc
        omega)]
    dsimp only
    rw [if_pos (by omega)]
  rw [processThrow_ok m playerId segment score hstate hfind hdarts] at hok
  have hpair := (Except.ok.inj hok).symm
  have hm' : m' = (processThrowBody m m.activePlayerIndex playerId segment score).1 := by
    rw [← hpair]
  have hr : r = (processThrowBody m m.activePlayerIndex playerId segment score).2 := by
    rw [← hpair]
  subst hm' hr
  unfold processThrowBody
  dsimp only
  rw [hvr]
  by_cases hd2 : p.currentTurn.length = 2
  · rw [if_pos (Or.inl hd2)]
    simp only [Bool.not_true, Bool.and_false, Bool.false_eq_true, if_false, Bool.not_false,
      if_true]
    refine ⟨trivial, ?_⟩
    unfold moveToNextPlayer
    dsimp only
    simp only [List.length_set]
    by_cases hni : (m.activePlayerIndex + 1) % m.players.length = m.activePlayerIndex
    · simp [hni, getD_set_self, List.length_set, hlt]
      rw [hpdef, getD_eq_getElem' _ _ _ hlt]
    · simp [List.getElem?_set_ne hni, List.getElem?_set_eq_of_lt _ hlt, getD_set_self,
        List.length_set, hlt]
      rw [hpdef, getD_eq_getElem' _ _ _ hlt]
  · rw [if_neg (by exact fun hc => hc.elim (fun h2 => hd2 h2) (fun hf => by simp at hf))]
    simp only [Bool.not_true, Bool.and_false, Bool.false_eq_true, if_false, Bool.not_false,
      if_true]
    refine ⟨trivial, ?_⟩
    simp [List.getElem?_set_eq_of_lt _ hlt, getD_set_self, List.length_set, hlt]
    rw [hpdef, getD_eq_getElem' _ _ _ hlt]

/-- The started fixture match extracted from `Except`. -/
def activeExample : Match :=
  match startedMatch with
  | .ok m => m
  | .error _ => dummyMatch

/-- Twelve throws bringing player 1 (301 start) to a committed score of
21 with an empty current turn. -/
def lowScoreMatch : Match :=
  match (do
    let m ← startedMatch
    runThrows m
      [(1, "T20", 60), (1, "T20", 60), (1, "T20", 60),
       (2, "S1", 1), (2, "S1", 1), (2, "S1", 1),
       (1, "T20", 60), (1, "S20", 20), (1, "S20", 20),
       (2, "S1", 1), (2, "S1", 1), (2, "S1", 1)] : Except MMErr Match) with
  | .ok m => m
  | .error _ => dummyMatch

/-- The result of player 1 (at 21) throwing a `T20` for 60: a bust. -/
def bustAfterExample : Match × ThrowResults :=
  match processThrow lowScoreMatch 1 "T20" 60 with
  | .ok x => x
  | .error _ => (dummyMatch, dummyResults)

/-- Witness for C2: player 1 at 21 throws `T20` (60); the result is a
bust and their score is restored to the turn-start 21. -/
theorem c2_negative_newScore_busts_witness :
    bustAfterExample.2.bust = true ∧
    (bustAfterExample.1.players.getD lowScoreMatch.activePlayerIndex dummyPlayer).score =
      (lowScoreMatch.players.getD lowScoreMatch.activePlayerIndex dummyPlayer).originalScore :=
  c2_negative_newScore_busts lowScoreMatch 1 "T20" 60
    bustAfterExample.1 bustAfterExample.2
    (by decide) (by decide) (by decide) (by decide) (by decide) (by decide) (by rfl)

end Darts

namespace Darts

theorem updateLegWin_tonPlus (ps : PlayerStats) (d : Nat) :
    (updateLegWin ps d).tonPlus = ps.tonPlus := by
  unfold updateLegWin
  dsimp only
  split <;> rfl

theorem updateLegWin_tonFortyPlus (ps : PlayerStats) (d : Nat) :
    (updateLegWin ps d).tonFortyPlus = ps.tonFortyPlus := by
  unfold updateLegWin
  dsimp only
  split <;> rfl

theorem updateLegWin_tonEightyPlus (ps : PlayerStats) (d : Nat) :
    (updateLegWin ps d).tonEightyPlus = ps.tonEightyPlus := by
  unfold updateLegWin
  dsimp only
  split <;> rfl

theorem getD_map_lt {α β} (f : α → β) (l : List α) (i : Nat) (d : β) (d' : α)
    (h : i < l.length) : (l.map f).getD i d = f (l.getD i d') := by
  rw [getD_eq_getElem' _ _ _ (by simpa using h), getD_eq_getElem' _ _ _ h]
  simp

theorem moveToNextPlayer_commits (m : Match)
    (hlt : m.activePlayerIndex < m.players.length) :
    ((moveToNextPlayer m).players.getD m.activePlayerIndex dummyPlayer).history =
      (m.players.getD m.activePlayerIndex dummyPlayer).history ++
        (m.players.getD m.activePlayerIndex dummyPlayer).currentTurn ∧
    ((moveToNextPlayer m).players.getD m.activePlayerIndex dummyPlayer).currentTurn = [] ∧
    mapGet (moveToNextPlayer m).stats.players
        (m.players.getD m.activePlayerIndex dummyPlayer).id =
      (mapGet m.stats.players (m.players.getD m.activePlayerIndex dummyPlayer).id).map
        (fun ps => updatePlayerTurn ps
          (((m.players.getD m.activePlayerIndex dummyPlayer).currentTurn.map
            (fun t => t.score)).sum)) := by
  unfold moveToNextPlayer
  dsimp only
  simp only [List.length_set]
  refine ⟨?_, ?_, ?_⟩
  · by_cases hni : (m.activePlayerIndex + 1) % m.players.length = m.activePlayerIndex
    · simp [hni, getD_set_self, List.length_set, hlt]
    · simp [List.getElem?_set_ne hni, List.getElem?_set_eq_of_lt _ hlt, List.length_set, hlt]
  · by_cases hni : (m.activePlayerIndex + 1) % m.players.length = m.activePlayerIndex
    · simp [hni, getD_set_self, List.length_set, hlt]
    · simp [List.getElem?_set_ne hni, List.getElem?_set_eq_of_lt _ hlt, List.length_set, hlt]
  · cases hmg : mapGet m.stats.players (m.players.getD m.activePlayerIndex dummyPlayer).id with
    | none =>
      simp only [List.getD, List.get?_eq_getElem?] at hmg
      simp [hmg]
    | some ps =>
      simp only [List.getD, List.get?_eq_getElem?] at hmg
      simp [hmg, mapGet_mapSet_self]

end Darts

namespace Darts

theorem moveToNextPlayer_after_set (m : Match) (q : Player)
    (hlt : m.activePlayerIndex < m.players.length) (k : Nat) (hk : q.id = k) :
    ((moveToNextPlayer { m with players := m.players.set m.activePlayerIndex q }).players.getD
        m.activePlayerIndex dummyPlayer).history = q.history ++ q.currentTurn ∧
    ((moveToNextPlayer { m with players := m.players.set m.activePlayerIndex q }).players.getD
        m.activePlayerIndex dummyPlayer).currentTurn = [] ∧
    mapGet (moveToNextPlayer
        { m with players := m.players.set m.activePlayerIndex q }).stats.players k =
      (mapGet m.stats.players k).map
        (fun ps => updatePlayerTurn ps ((q.currentTurn.map (fun t => t.score)).sum) ) := by
  subst hk
  have h := moveToNextPlayer_commits
    { m with players := m.players.set m.activePlayerIndex q } (by simpa using hlt)
  dsimp only at h
  rw [getD_set_self _ _ _ _ hlt] at h
  exact h

end Darts

namespace Darts

theorem processThrow_thirdDart_commits
    (m : Match) (playerId : Nat) (segment : String) (score : Int)
    (m' : Match) (r : ThrowResults)
    (hstate : m.state = .active)
    (hfind : findPlayerIdx m.players playerId = some m.activePlayerIndex)
    (hdarts : (m.players.getD m.activePlayerIndex dummyPlayer).currentTurn.length = 2)
    (hvalid : (validateX01Throw (m.players.getD m.activePlayerIndex dummyPlayer).score
      segment score (m.players.getD m.activePlayerIndex dummyPlayer).currentTurn.length
      m.settings.toValidatorOptions).valid = true)
    (hbust : (validateX01Throw (m.players.getD m.activePlayerIndex dummyPlayer).score
      segment score (m.players.getD m.activePlayerIndex dummyPlayer).currentTurn.length
      m.settings.toValidatorOptions).bust = false)
    (hgs : (validateX01Throw (m.players.getD m.activePlayerIndex dummyPlayer).score
      segment score (m.players.getD m.activePlayerIndex dummyPlayer).currentTurn.length
      m.settings.toValidatorOptions).gameShot = false)
    (hok : processThrow m playerId segment score = .ok (m', r)) :
    (m'.players.getD m.activePlayerIndex dummyPlayer).history =
      (m.players.getD m.activePlayerIndex dummyPlayer).history ++
        ((m.players.getD m.activePlayerIndex dummyPlayer).currentTurn ++
          [{ playerId := playerId, round := m.round,
             throwIndex := (m.players.getD m.activePlayerIndex dummyPlayer).currentTurn.length + 1,
             segment := segment, score := score }]) ∧
    (m'.players.getD m.activePlayerIndex dummyPlayer).currentTurn = [] ∧
    mapGet m'.stats.players playerId =
      (mapGet m.stats.players playerId).map
        (fun ps => updatePlayerTurn ps
          ((((m.players.getD m.activePlayerIndex dummyPlayer).currentTurn.map
            (fun t => t.score)).sum) + score)) := by
  have hlt : m.activePlayerIndex < m.players.length := findPlayerIdx_lt_length hfind
  have hid : (m.players.getD m.activePlayerIndex dummyPlayer).id = playerId :=
    findPlayerIdx_id dummyPlayer hfind
  rw [processThrow_ok m playerId segment score hstate hfind (by omega)] at hok
  have hpair := (Except.ok.inj hok).symm
  have hm' : m' = (processThrowBody m m.activePlayerIndex playerId segment score).1 := by
    rw [← hpair]
  subst hm'
  unfold processThrowBody
  dsimp only
  simp only [List.getD, List.get?_eq_getElem?] at hvalid hbust hgs hdarts hid ⊢
  simp only [hvalid, hbust, hgs, Bool.not_false, Bool.true_and, Bool.false_eq_true, if_false,
    eq_self_iff_true, if_true, or_false]
  rw [if_pos hdarts]
  simp only [Bool.not_false, if_true]
  have h := moveToNextPlayer_after_set m
    { (m.players[m.activePlayerIndex]?.getD dummyPlayer) with
      score := (validateX01Throw (m.players[m.activePlayerIndex]?.getD dummyPlayer).score
          segment score (m.players[m.activePlayerIndex]?.getD dummyPlayer).currentTurn.length
          m.settings.toValidatorOptions).newScore.getD
        (m.players[m.activePlayerIndex]?.getD dummyPlayer).score,
      currentTurn := (m.players[m.activePlayerIndex]?.getD dummyPlayer).currentTurn ++
        [{ playerId := playerId, round := m.round,
           throwIndex := (m.players[m.activePlayerIndex]?.getD dummyPlayer).currentTurn.length + 1,
           segment := segment, score := score }],
      dartsThrown := (m.players[m.activePlayerIndex]?.getD dummyPlayer).dartsThrown + 1 }
    hlt playerId (by exact hid)
  dsimp only at h
  simp only [List.getD, List.get?_eq_getElem?] at h
  obtain ⟨h1, h2, h3⟩ := h
  refine ⟨by exact h1, by exact h2, ?_⟩
  simp only [List.map_append, List.sum_append, List.map_cons, List.map_nil, List.sum_cons,
    List.sum_nil, add_zero] at h3
  exact h3

end Darts

namespace Darts

theorem setupNextLeg_preserves (M : Match) (i : Nat) (hi : i < M.players.length) :
    ((setupNextLeg M).players.getD i dummyPlayer).history =
      (M.players.getD i dummyPlayer).history ∧
    ((setupNextLeg M).players.getD i dummyPlayer).currentTurn = [] ∧
    (setupNextLeg M).stats.players = M.stats.players := by
  unfold setupNextLeg
  dsimp only
  rw [getD_map_lt _ _ _ _ dummyPlayer hi]
  exact ⟨rfl, rfl, rfl⟩

theorem setupNextLeg_after_set (m : Match) (q : Player) (stats' : MatchStats)
    (hlt : m.activePlayerIndex < m.players.length) :
    ((setupNextLeg { m with players := m.players.set m.activePlayerIndex q, stats := stats' }).players.getD m.activePlayerIndex dummyPlayer).history =
      q.history ∧
    ((setupNextLeg { m with players := m.players.set m.activePlayerIndex q, stats := stats' }).players.getD m.activePlayerIndex dummyPlayer).currentTurn = [] ∧
    (setupNextLeg { m with players := m.players.set m.activePlayerIndex q, stats := stats' }).stats.players = stats'.players := by
  have h := setupNextLeg_preserves
    { m with players := m.players.set m.activePlayerIndex q, stats := stats' }
    m.activePlayerIndex (by simpa using hlt)
  dsimp only at h
  rw [getD_set_self _ _ _ _ hlt] at h
  exact h

theorem ite_fst {α β : Type} {c : Prop} [Decidable c] (a b : α × β) :
    (if c then a else b).1 = if c then a.1 else b.1 := by
  split <;> rfl

theorem ite_snd {α β : Type} {c : Prop} [Decidable c] (a b : α × β) :
    (if c then a else b).2 = if c then a.2 else b.2 := by
  split <;> rfl

theorem processThrow_legWin_discards
    (m : Match) (playerId : Nat) (segment : String) (score : Int)
    (m' : Match) (r : ThrowResults)
    (hstate : m.state = .active)
    (hfind : findPlayerIdx m.players playerId = some m.activePlayerIndex)
    (hdarts : (m.players.getD m.activePlayerIndex dummyPlayer).currentTurn.length < 3)
    (hvalid : (validateX01Throw (m.players.getD m.activePlayerIndex dummyPlayer).score
      segment score (m.players.getD m.activePlayerIndex dummyPlayer).currentTurn.length
      m.settings.toValidatorOptions).valid = true)
    (hbust : (validateX01Throw (m.players.getD m.activePlayerIndex dummyPlayer).score
      segment score (m.players.getD m.activePlayerIndex dummyPlayer).currentTurn.length
      m.settings.toValidatorOptions).bust = false)
    (hgs2 : (validateX01Throw (m.players.getD m.activePlayerIndex dummyPlayer).score
      segment score (m.players.getD m.activePlayerIndex dummyPlayer).currentTurn.length
      m.settings.toValidatorOptions).gameShot = true)
    (hok : processThrow m playerId segment score = .ok (m', r))
    (hmw : r.matchWon = false) :
    r.legWon = true ∧
    (m'.players.getD m.activePlayerIndex dummyPlayer).history =
      (m.players.getD m.activePlayerIndex dummyPlayer).history ∧
    (m'.players.getD m.activePlayerIndex dummyPlayer).currentTurn = [] ∧
    (mapGet m'.stats.players playerId).map
        (fun s => (s.tonPlus, s.tonFortyPlus, s.tonEightyPlus)) =
      (mapGet m.stats.players playerId).map
        (fun s => (s.tonPlus, s.tonFortyPlus, s.tonEightyPlus)) := by
  have hlt : m.activePlayerIndex < m.players.length := findPlayerIdx_lt_length hfind
  rw [processThrow_ok m playerId segment score hstate hfind hdarts] at hok
  have hpair := (Except.ok.inj hok).symm
  have hm' : m' = (processThrowBody m m.activePlayerIndex playerId segment score).1 := by
    rw [← hpair]
  have hr : r = (processThrowBody m m.activePlayerIndex playerId segment score).2 := by
    rw [← hpair]
  subst hm'
  subst hr
  clear hok hpair
  unfold processThrowBody at hmw ⊢
  dsimp only at hmw ⊢
  simp only [List.getD, List.get?_eq_getElem?] at hvalid hbust hgs2 hdarts hmw ⊢
  set p := m.players[m.activePlayerIndex]?.getD dummyPlayer with hpdef
  simp only [hvalid, hbust, hgs2, Bool.not_false, Bool.true_and, eq_self_iff_true, if_true,
    ite_self, or_true, Bool.not_true, Bool.false_eq_true, if_false, ite_fst, ite_snd] at hmw ⊢
  split at hmw
  · exact absurd hmw (by simp)
  · rename_i hC
    simp only [if_neg hC]
    have hsl := setupNextLeg_after_set m
      { p with
        score := (validateX01Throw p.score segment score p.currentTurn.length
          m.settings.toValidatorOptions).newScore.getD p.score,
        isWinner := true,
        currentTurn := p.currentTurn ++
          [{ playerId := playerId, round := m.round, throwIndex := p.currentTurn.length + 1,
             segment := segment, score := score }],
        dartsThrown := p.dartsThrown + 1 }
      (match mapGet m.stats.players playerId with
       | some ps =>
         { m.stats with
           players := mapSet m.stats.players playerId (updateLegWin ps (p.dartsThrown + 1)) }
       | none => m.stats)
      hlt
    simp only [List.getD, List.get?_eq_getElem?] at hsl
    refine ⟨trivial, hsl.1, hsl.2.1, ?_⟩
    rw [hsl.2.2]
    cases hmg : mapGet m.stats.players playerId with
    | none => simp [hmg]
    | some ps => simp [hmg, mapGet_mapSet_self, updateLegWin_tonPlus,
        updateLegWin_tonFortyPlus, updateLegWin_tonEightyPlus]

end Darts

namespace Darts

/-- statsTracker.ts `updatePlayerThrow` does implement the documented
per-throw updates: darts up by one, points added only on non-bust, bust
and checkout counters, and the recomputed three-dart average. -/
theorem updatePlayerThrow_fields (stats : PlayerStats) (throwScore : Int)
    (isBust isCA isSC : Bool) (cv : Int) :
    (updatePlayerThrow stats throwScore isBust isCA isSC cv).dartsThrown =
      stats.dartsThrown + 1 ∧
    (updatePlayerThrow stats throwScore isBust isCA isSC cv).pointsScored =
      (if isBust then stats.pointsScored else stats.pointsScored + throwScore) ∧
    (updatePlayerThrow stats throwScore isBust isCA isSC cv).busts =
      (if isBust then stats.busts + 1 else stats.busts) ∧
    (updatePlayerThrow stats throwScore isBust isCA isSC cv).checkoutAttempts =
      (if isCA then stats.checkoutAttempts + 1 else stats.checkoutAttempts) ∧
    (updatePlayerThrow stats throwScore isBust isCA isSC cv).checkoutSuccesses =
      (if isSC then stats.checkoutSuccesses + 1 else stats.checkoutSuccesses) ∧
    (updatePlayerThrow stats throwScore isBust isCA isSC cv).averageThrow =
      (((updatePlayerThrow stats throwScore isBust isCA isSC cv).pointsScored : ℚ) /
        ((updatePlayerThrow stats throwScore isBust isCA isSC cv).dartsThrown : ℚ)) * 3 := by
  unfold updatePlayerThrow
  cases isBust <;> cases isCA <;> cases isSC <;> simp [apply_ite]

/-- `processThrow` leaves the per-player Statistics records untouched on
an accepted, non-bust, non-game-shot dart that does not end the turn:
it never calls `updatePlayerThrow`. -/
theorem processThrow_leaves_stats (m : Match) (playerId : Nat) (segment : String)
    (score : Int) (m' : Match) (r : ThrowResults)
    (hstate : m.state = .active)
    (hfind : findPlayerIdx m.players playerId = some m.activePlayerIndex)
    (hdarts : (m.players.getD m.activePlayerIndex dummyPlayer).currentTurn.length < 2)
    (hvalid : (validateX01Throw (m.players.getD m.activePlayerIndex dummyPlayer).score
      segment score (m.players.getD m.activePlayerIndex dummyPlayer).currentTurn.length
      m.settings.toValidatorOptions).valid = true)
    (hbust : (validateX01Throw (m.players.getD m.activePlayerIndex dummyPlayer).score
      segment score (m.players.getD m.activePlayerIndex dummyPlayer).currentTurn.length
      m.settings.toValidatorOptions).bust = false)
    (hgs : (validateX01Throw (m.players.getD m.activePlayerIndex dummyPlayer).score
      segment score (m.players.getD m.activePlayerIndex dummyPlayer).currentTurn.length
      m.settings.toValidatorOptions).gameShot = false)
    (hok : processThrow m playerId segment score = .ok (m', r)) :
    m'.stats.players = m.stats.players := by
  rw [processThrow_ok m playerId segment score hstate hfind (by omega)] at hok
  have hpair := (Except.ok.inj hok).symm
  have hm' : m' = (processThrowBody m m.activePlayerIndex playerId segment score).1 := by
    rw [← hpair]
  subst hm'
  unfold processThrowBody
  dsimp only
  simp only [List.getD, List.get?_eq_getElem?] at hvalid hbust hgs hdarts
  have hne2 : ¬ (m.players[m.activePlayerIndex]?.getD dummyPlayer).currentTurn.length = 2 := by
    omega
  simp [hvalid, hbust, hgs, hne2]

/-- C4 amended: the exported per-throw accumulator `updatePlayerThrow`
does implement the documented updates (dart count, points on non-bust,
bust and checkout counters, three-dart average), but `processThrow`
never invokes it: an accepted, non-bust, non-game-shot dart that does
not end the turn leaves every per-player Statistics record exactly as it
was. -/
theorem c4_stats_accumulator_unused
    (m : Match) (playerId : Nat) (segment : String) (score : Int)
    (m' : Match) (r : ThrowResults)
    (hstate : m.state = .active)
    (hfind : findPlayerIdx m.players playerId = some m.activePlayerIndex)
    (hdarts : (m.players.getD m.activePlayerIndex dummyPlayer).currentTurn.length < 2)
    (hvalid : (validateX01Throw (m.players.getD m.activePlayerIndex dummyPlayer).score
      segment score (m.players.getD m.activePlayerIndex dummyPlayer).currentTurn.length
      m.settings.toValidatorOptions).valid = true)
    (hbust : (validateX01Throw (m.players.getD m.activePlayerIndex dummyPlayer).score
      segment score (m.players.getD m.activePlayerIndex dummyPlayer).currentTurn.length
      m.settings.toValidatorOptions).bust = false)
    (hgs : (validateX01Throw (m.players.getD m.activePlayerIndex dummyPlayer).score
      segment score (m.players.getD m.activePlayerIndex dummyPlayer).currentTurn.length
      m.settings.toValidatorOptions).gameShot = false)
    (hok : processThrow m playerId segment score = .ok (m', r)) :
    (∀ (stats : PlayerStats) (throwScore : Int) (isBust isCA isSC : Bool) (cv : Int),
      (updatePlayerThrow stats throwScore isBust isCA isSC cv).dartsThrown =
        stats.dartsThrown + 1 ∧
      (updatePlayerThrow stats throwScore isBust isCA isSC cv).pointsScored =
        (if isBust then stats.pointsScored else stats.pointsScored + throwScore) ∧
      (updatePlayerThrow stats throwScore isBust isCA isSC cv).averageThrow =
        (((updatePlayerThrow stats throwScore isBust isCA isSC cv).pointsScored : ℚ) /
          ((updatePlayerThrow stats throwScore isBust isCA isSC cv).dartsThrown : ℚ)) * 3) ∧
    m'.stats.players = m.stats.players := by
  refine ⟨fun stats throwScore isBust isCA isSC cv => ?_, ?_⟩
  · have h := updatePlayerThrow_fields stats throwScore isBust isCA isSC cv
    exact ⟨h.1, h.2.1, h.2.2.2.2.2⟩
  · exact processThrow_leaves_stats m playerId segment score m' r
      hstate hfind hdarts hvalid hbust hgs hok

/-- The match and results of the single accepted throw of `oneThrowRun`,
extracted from `Except`. -/
def oneThrowExample : Match × ThrowResults :=
  match oneThrowRun with
  | .ok x => x
  | .error _ => (dummyMatch, dummyResults)

/-- Witness for the amended C4 at the started fixture match: player 1's
accepted opening `T20` leaves the stats map unchanged, while the (never
called) accumulator itself does count the dart. -/
theorem c4_stats_accumulator_unused_witness :
    oneThrowExample.1.stats.players = activeExample.stats.players ∧
    (updatePlayerThrow initPlayerStats 60 false false false 0).dartsThrown =
      initPlayerStats.dartsThrown + 1 := by
  have h := c4_stats_accumulator_unused activeExample 1 "T20" 60
    oneThrowExample.1 oneThrowExample.2 (by decide) (by decide) (by decide)
    (by decide) (by decide) (by decide) (by rfl)
  exact ⟨h.2, (h.1 initPlayerStats 60 false false false 0).1⟩

end Darts

namespace Darts

/-- C5 amended: when the third dart of the turn is an accepted, non-bust,
non-game-shot throw, the turn is committed as claimed — the three darts
move from `currentTurn` to `history` and the turn total goes through the
ton-tier classifier `updatePlayerTurn`; but when a dart wins the leg
(game shot, match not yet won), the turn is NOT committed: `currentTurn`
is cleared with its throws discarded (history unchanged) and the ton-tier
counters are untouched, because the leg-win path calls `setupNextLeg`
instead of `moveToNextPlayer`. -/
theorem c5_turn_commit_amended :
    (∀ (m : Match) (playerId : Nat) (segment : String) (score : Int)
      (m' : Match) (r : ThrowResults),
      m.state = .active →
      findPlayerIdx m.players playerId = some m.activePlayerIndex →
      (m.players.getD m.activePlayerIndex dummyPlayer).currentTurn.length = 2 →
      (validateX01Throw (m.players.getD m.activePlayerIndex dummyPlayer).score
        segment score (m.players.getD m.activePlayerIndex dummyPlayer).currentTurn.length
        m.settings.toValidatorOptions).valid = true →
      (validateX01Throw (m.players.getD m.activePlayerIndex dummyPlayer).score
        segment score (m.players.getD m.activePlayerIndex dummyPlayer).currentTurn.length
        m.settings.toValidatorOptions).bust = false →
      (validateX01Throw (m.players.getD m.activePlayerIndex dummyPlayer).score
        segment score (m.players.getD m.activePlayerIndex dummyPlayer).currentTurn.length
        m.settings.toValidatorOptions).gameShot = false →
      processThrow m playerId segment score = .ok (m', r) →
      (m'.players.getD m.activePlayerIndex dummyPlayer).history =
        (m.players.getD m.activePlayerIndex dummyPlayer).history ++
          ((m.players.getD m.activePlayerIndex dummyPlayer).currentTurn ++
            [{ playerId := playerId, round := m.round,
               throwIndex :=
                 (m.players.getD m.activePlayerIndex dummyPlayer).currentTurn.length + 1,
               segment := segment, score := score }]) ∧
      (m'.players.getD m.activePlayerIndex dummyPlayer).currentTurn = [] ∧
      mapGet m'.stats.players playerId =
        (mapGet m.stats.players playerId).map
          (fun ps => updatePlayerTurn ps
            ((((m.players.getD m.activePlayerIndex dummyPlayer).currentTurn.map
              (fun t => t.score)).sum) + score))) ∧
    (∀ (m : Match) (playerId : Nat) (segment : String) (score : Int)
      (m' : Match) (r : ThrowResults),
      m.state = .active →
      findPlayerIdx m.players playerId = some m.activePlayerIndex →
      (m.players.getD m.activePlayerIndex dummyPlayer).currentTurn.length < 3 →
      (validateX01Throw (m.players.getD m.activePlayerIndex dummyPlayer).score
        segment score (m.players.getD m.activePlayerIndex dummyPlayer).currentTurn.length
        m.settings.toValidatorOptions).valid = true →
      (validateX01Throw (m.players.getD m.activePlayerIndex dummyPlayer).score
        segment score (m.players.getD m.activePlayerIndex dummyPlayer).currentTurn.length
        m.settings.toValidatorOptions).bust = false →
      (validateX01Throw (m.players.getD m.activePlayerIndex dummyPlayer).score
        segment score (m.players.getD m.activePlayerIndex dummyPlayer).currentTurn.length
        m.settings.toValidatorOptions).gameShot = true →
      processThrow m playerId segment score = .ok (m', r) →
      r.matchWon = false →
      r.legWon = true ∧
      (m'.players.getD m.activePlayerIndex dummyPlayer).history =
        (m.players.getD m.activePlayerIndex dummyPlayer).history ∧
      (m'.players.getD m.activePlayerIndex dummyPlayer).currentTurn = [] ∧
      (mapGet m'.stats.players playerId).map
          (fun s => (s.tonPlus, s.tonFortyPlus, s.tonEightyPlus)) =
        (mapGet m.stats.players playerId).map
          (fun s => (s.tonPlus, s.tonFortyPlus, s.tonEightyPlus))) :=
  ⟨processThrow_thirdDart_commits, processThrow_legWin_discards⟩

/-- Two accepted darts by player 1 (`T20`, `S20`) on the started match:
score 221, two throws in the current turn. -/
def twoDartMatch : Match :=
  match (do
    let m ← startedMatch
    runThrows m [(1, "T20", 60), (1, "S20", 20)] : Except MMErr Match) with
  | .ok m => m
  | .error _ => dummyMatch

/-- Player 1's third dart (`S20`) on `twoDartMatch`, extracted. -/
def thirdDartExample : Match × ThrowResults :=
  match processThrow twoDartMatch 1 "S20" 20 with
  | .ok x => x
  | .error _ => (dummyMatch, dummyResults)

/-- The match after `legWinPrefix`, extracted: player 1 at 50 with
`T20 T20` in the current turn. -/
def legWinMatch : Match :=
  match (do
    let m ← startedMatch
    runThrows m legWinPrefix : Except MMErr Match) with
  | .ok m => m
  | .error _ => dummyMatch

/-- Player 1's leg-winning `DBULL` on `legWinMatch`, extracted. -/
def legWinExample : Match × ThrowResults :=
  match processThrow legWinMatch 1 "DBULL" 50 with
  | .ok x => x
  | .error _ => (dummyMatch, dummyResults)

/-- Witness for the amended C5: the ordinary third dart clears the
current turn into history, while the leg-winning dart reports the leg
won yet leaves the winner's history unchanged. -/
theorem c5_turn_commit_amended_witness :
    (thirdDartExample.1.players.getD twoDartMatch.activePlayerIndex dummyPlayer).currentTurn
        = [] ∧
    legWinExample.2.legWon = true ∧
    (legWinExample.1.players.getD legWinMatch.activePlayerIndex dummyPlayer).history =
      (legWinMatch.players.getD legWinMatch.activePlayerIndex dummyPlayer).history := by
  have h1 := c5_turn_commit_amended.1 twoDartMatch 1 "S20" 20
    thirdDartExample.1 thirdDartExample.2 (by decide) (by decide) (by decide)
    (by decide) (by decide) (by decide) (by rfl)
  have h2 := c5_turn_commit_amended.2 legWinMatch 1 "DBULL" 50
    legWinExample.1 legWinExample.2 (by decide) (by decide) (by decide)
    (by decide) (by decide) (by decide) (by rfl) (by rfl)
  exact ⟨h1.2.1, h2.1, h2.2.1⟩

end Darts

namespace Darts

/-! ### Reachability and the structural invariants (C3, C6) -/

/-- Match states reachable through the public operations, starting from
`createMatch` (with the undefined `this.settings` read repaired, see C9)
on player models with distinct database ids. -/
inductive Reachable : Match → Prop where
  | created {boardId : Nat} {players : List PlayerModel} {mode : String}
      {legsToWin : Nat} {settings : PartialSettings} {m : Match} :
      (players.map PlayerModel.id).Nodup →
      createMatchRepaired none boardId players mode legsToWin settings = .ok m →
      Reachable m
  | warmedUp {m m' : Match} : Reachable m → startWarmup m = .ok m' → Reachable m'
  | warmupEnded {m m' : Match} : Reachable m → endWarmup m = .ok m' → Reachable m'
  | bullSet {m m' : Match} {pid : Nat} :
      Reachable m → setBullWinner m pid = .ok m' → Reachable m'
  | thrown {m m' : Match} {pid : Nat} {segment : String} {score : Int}
      {r : ThrowResults} :
      Reachable m → processThrow m pid segment score = .ok (m', r) → Reachable m'
  | switched {m : Match} : Reachable m → Reachable (manualPlayerSwitch m)
  | ended {m : Match} {wid : Option Nat} : Reachable m → Reachable (endMatch m wid)

/-- Exactly the player at position `i` is flagged active. -/
def OneActive (l : List Player) (i : Nat) : Prop :=
  i < l.length ∧ ∀ j (hj : j < l.length), ((l.get ⟨j, hj⟩).isActive = true ↔ j = i)

/-- The structural invariant maintained by every public operation:
the active player is exactly the one at `activePlayerIndex`, player ids
are distinct, every player has a Statistics record, and (until the match
completes) the Statistics legs-won total is one less than the current
leg. -/
def Inv (m : Match) : Prop :=
  OneActive m.players m.activePlayerIndex ∧
  (m.players.map Player.id).Nodup ∧
  (∀ p ∈ m.players, (mapGet m.stats.players p.id).isSome = true) ∧
  (m.state ≠ .completed → statsLegsWonSum m + 1 = m.currentLeg)

/-- Presence of a key in the stats map is preserved by any `mapSet`. -/
theorem mapGet_isSome_mapSet (l : List (Nat × PlayerStats)) (k k' : Nat)
    (v : PlayerStats) (h : (mapGet l k).isSome = true) :
    (mapGet (mapSet l k' v) k).isSome = true := by
  by_cases hk : k' = k
  · subst hk
    simp [mapGet_mapSet_self]
  · rw [mapGet_mapSet_ne l k' k v hk]
    exact h

/-- `updateLegWin` increments `legsWon` by one. -/
theorem updateLegWin_legsWon (ps : PlayerStats) (d : Nat) :
    (updateLegWin ps d).legsWon = ps.legsWon + 1 := by
  unfold updateLegWin
  dsimp only
  split <;> rfl

/-- `updatePlayerTurn` never changes `legsWon`. -/
theorem updatePlayerTurn_legsWon (ps : PlayerStats) (t : Int) :
    (updatePlayerTurn ps t).legsWon = ps.legsWon := by
  unfold updatePlayerTurn
  split
  · rfl
  · split
    · rfl
    · split
      · rfl
      · rfl

/-- Distinct ids make position-from-id unique. -/
theorem nodup_id_getElem {l : List Player} (h : (l.map Player.id).Nodup)
    {i j : Nat} (hi : i < l.length) (hj : j < l.length)
    (he : (l.get ⟨i, hi⟩).id = (l.get ⟨j, hj⟩).id) : i = j := by
  have hi' : i < (l.map Player.id).length := by simpa using hi
  have hj' : j < (l.map Player.id).length := by simpa using hj
  have h' : (l.map Player.id).get ⟨i, hi'⟩ = (l.map Player.id).get ⟨j, hj'⟩ := by
    simpa using he
  have := List.Nodup.get_inj_iff h |>.mp h'
  exact Fin.mk.inj_iff.mp this

/-- Writing an id-preserving player record keeps the id list. -/
theorem map_id_set (l : List Player) (i : Nat) (q : Player) (hi : i < l.length)
    (hq : q.id = (l.get ⟨i, hi⟩).id) :
    (l.set i q).map Player.id = l.map Player.id := by
  apply List.ext_getElem
  · simp
  intro j h1 h2
  simp only [List.getElem_map, List.getElem_set]
  split
  · rename_i hij
    subst hij
    simpa using hq
  · rfl

/-- Writing a player whose active flag matches the overwritten one keeps
`OneActive`. -/
theorem oneActive_set (l : List Player) (i k : Nat) (q : Player)
    (hk : k < l.length) (hq : q.isActive = (l.get ⟨k, hk⟩).isActive)
    (h : OneActive l i) : OneActive (l.set k q) i := by
  obtain ⟨hi, hall⟩ := h
  refine ⟨by simpa using hi, ?_⟩
  intro j hj
  have hj' : j < l.length := by simpa using hj
  simp only [List.get_eq_getElem, List.getElem_set]
  split
  · rename_i hkj
    subst hkj
    rw [hq]
    simpa using hall k hk
  · simpa using hall j hj'

/-- Membership after `mapSet`: an old entry or the new value. -/
theorem mem_mapSet (l : List (Nat × PlayerStats)) (k : Nat) (v : PlayerStats)
    (e : Nat × PlayerStats) (h : e ∈ mapSet l k v) : e ∈ l ∨ e.2 = v := by
  induction l with
  | nil =>
    simp only [mapSet, List.mem_singleton] at h
    right
    rw [h]
  | cons hd tl ih =>
    obtain ⟨k0, v0⟩ := hd
    simp only [mapSet] at h
    split at h
    · rcases List.mem_cons.mp h with rfl | hm
      · right
        rfl
      · left
        exact List.mem_cons_of_mem _ hm
    · rcases List.mem_cons.mp h with rfl | hm
      · left
        exact List.mem_cons_self _ _
      · rcases ih hm with hin | hv
        · left
          exact List.mem_cons_of_mem _ hin
        · right
          exact hv

/-- Keys accumulated by the `initMatchStats` fold are all present. -/
theorem mapGet_foldl_init (ids : List Nat) (init : List (Nat × PlayerStats)) (k : Nat)
    (h : k ∈ ids ∨ (mapGet init k).isSome = true) :
    (mapGet (ids.foldl (fun m pid => mapSet m pid initPlayerStats) init) k).isSome
      = true := by
  induction ids generalizing init with
  | nil =>
    rcases h with h | h
    · simp at h
    · exact h
  | cons a t ih =>
    simp only [List.foldl_cons]
    apply ih
    rcases h with h | h
    · rcases List.mem_cons.mp h with rfl | hm
      · right
        simp [mapGet_mapSet_self]
      · left
        exact hm
    · right
      exact mapGet_isSome_mapSet _ _ _ _ h

/-- Every value inserted by the `initMatchStats` fold is the zero
record. -/
theorem foldl_init_values (ids : List Nat) (init : List (Nat × PlayerStats))
    (h : ∀ e ∈ init, e.2 = initPlayerStats) :
    ∀ e ∈ ids.foldl (fun m pid => mapSet m pid initPlayerStats) init,
      e.2 = initPlayerStats := by
  induction ids generalizing init with
  | nil => simpa using h
  | cons a t ih =>
    simp only [List.foldl_cons]
    apply ih
    intro e he
    rcases mem_mapSet init a initPlayerStats e he with hin | hv
    · exact h e hin
    · exact hv

/-- A stats map of zero records has zero `legsWon` total. -/
theorem legsSumOf_zero (l : List (Nat × PlayerStats))
    (h : ∀ e ∈ l, e.2 = initPlayerStats) : legsSumOf l = 0 := by
  unfold legsSumOf
  apply List.sum_eq_zero
  intro x hx
  simp only [List.mem_map] at hx
  obtain ⟨e, he, rfl⟩ := hx
  rw [h e he]
  rfl

end Darts

namespace Darts

/-- `statsLegsWonSum` is `legsSumOf` of the stats map. -/
theorem statsLegsWonSum_eq (m : Match) :
    statsLegsWonSum m = legsSumOf m.stats.players := rfl

/-- A (repaired) `createMatch` on distinct ids establishes the
invariant. -/
theorem inv_created {boardId : Nat} {players : List PlayerModel} {mode : String}
    {legsToWin : Nat} {settings : PartialSettings} {m : Match}
    (hnd : (players.map PlayerModel.id).Nodup)
    (h : createMatchRepaired none boardId players mode legsToWin settings = .ok m) :
    Inv m := by
  unfold createMatchRepaired createMatchWith initializePlayers at h
  simp only [Option.isSome_none, Bool.false_eq_true, if_false] at h
  split at h
  · exact absurd h (by simp)
  · rename_i first hfirst
    have hm := Except.ok.inj h
    subst hm
    have hne : ¬ players = [] := by
      intro hnil
      subst hnil
      simp at hfirst
    have hlen : 0 < players.length := List.length_pos.mpr hne
    refine ⟨⟨by simpa using hlen, ?_⟩, ?_, ?_, ?_⟩
    · intro j hj
      have hj' : j < players.length := by simpa using hj
      simp [List.getElem_mapIdx]
    · have hids : (players.mapIdx fun index pm =>
          ({ id := pm.id, name := pm.name, position := index + 1,
             score := (resolveValidatorOptions mode settings).startingScore,
             isActive := index == 0, isWinner := false, history := [],
             currentTurn := [],
             originalScore := (resolveValidatorOptions mode settings).startingScore,
             dartsThrown := 0, legsWon := 0 } : Player)).map Player.id =
          players.map PlayerModel.id := by
        apply List.ext_getElem
        · simp
        intro j h1 h2
        simp [List.getElem_mapIdx]
      dsimp only
      rw [hids]
      exact hnd
    · intro p hp
      dsimp only
      unfold initMatchStats
      dsimp only
      apply mapGet_foldl_init
      left
      exact List.mem_map_of_mem _ hp
    · intro hst
      rw [statsLegsWonSum_eq]
      dsimp only
      unfold initMatchStats
      dsimp only
      rw [legsSumOf_zero _ (foldl_init_values _ _ (by simp))]

end Darts

namespace Darts

/-- Stats keys cover a player list whenever they cover one with the same
ids. -/
theorem keys_of_map_id_eq {l l' : List Player} {S : List (Nat × PlayerStats)}
    (h : l'.map Player.id = l.map Player.id)
    (h3 : ∀ p ∈ l, (mapGet S p.id).isSome = true) :
    ∀ p ∈ l', (mapGet S p.id).isSome = true := by
  intro p hp
  have hm : p.id ∈ l'.map Player.id := List.mem_map_of_mem _ hp
  rw [h] at hm
  rcases List.mem_map.mp hm with ⟨q, hq, he⟩
  rw [← he]
  exact h3 q hq

/-- `map_id_set` with the replaced player given through `getD`. -/
theorem map_id_set_mod (l : List Player) (k : Nat) (q : Player) (hk : k < l.length)
    (hq : q.id = (l.getD k dummyPlayer).id) :
    (l.set k q).map Player.id = l.map Player.id := by
  apply map_id_set l k q hk
  rw [hq, getD_elem _ _ _ hk]

/-- The starter-rotation index of `setupNextLeg` is in range. -/
theorem toNat_emod_lt (a : Int) (n : Nat) (h : 0 < n) :
    ((a + 1) % (n : Int)).toNat < n := by
  have hl : (0 : Int) < (n : Int) := by exact_mod_cast h
  have h1 := Int.emod_lt_of_pos (a + 1) hl
  have h2 := Int.emod_nonneg (a + 1) (ne_of_gt hl)
  omega

/-- Writing an id- and active-flag-preserving player at the active index
keeps the three structural parts of the invariant, for any stats map
that keeps the old keys. -/
theorem inv3_update_player (m : Match) (q : Player) (stats' : MatchStats)
    (hlen : m.activePlayerIndex < m.players.length)
    (hact1 : OneActive m.players m.activePlayerIndex)
    (h2 : (m.players.map Player.id).Nodup)
    (h3 : ∀ p ∈ m.players, (mapGet m.stats.players p.id).isSome = true)
    (hq_id : q.id = (m.players.getD m.activePlayerIndex dummyPlayer).id)
    (hq_act : q.isActive = (m.players.getD m.activePlayerIndex dummyPlayer).isActive)
    (hkeys : ∀ k, (mapGet m.stats.players k).isSome = true →
      (mapGet stats'.players k).isSome = true) :
    OneActive (m.players.set m.activePlayerIndex q) m.activePlayerIndex ∧
    ((m.players.set m.activePlayerIndex q).map Player.id).Nodup ∧
    (∀ p ∈ m.players.set m.activePlayerIndex q,
      (mapGet stats'.players p.id).isSome = true) := by
  refine ⟨?_, ?_, ?_⟩
  · apply oneActive_set _ _ _ _ hlen _ hact1
    rw [hq_act, getD_elem _ _ _ hlen]
  · rw [map_id_set_mod _ _ _ hlen hq_id]
    exact h2
  · apply keys_of_map_id_eq (map_id_set_mod _ _ _ hlen hq_id)
    intro p hp
    exact hkeys _ (h3 p hp)

/-- Completing a match preserves the invariant (the leg-count conjunct
becomes vacuous). -/
theorem inv_completed (m : Match) (hI : Inv m) :
    Inv { m with state := MatchState.completed } :=
  ⟨hI.1, hI.2.1, hI.2.2.1, fun hc => absurd rfl hc⟩

end Darts

namespace Darts

/-- `setupNextLeg` re-establishes the invariant from scratch: it
activates exactly the next starter, keeps ids and the stats map, and
bumps the leg counter — so it suffices that the incoming legs-won total
already equals the incoming `currentLeg` (the caller has just recorded
the leg win). -/
theorem inv_setupNextLeg (m : Match) (hlen : 0 < m.players.length)
    (h2 : (m.players.map Player.id).Nodup)
    (h3 : ∀ p ∈ m.players, (mapGet m.stats.players p.id).isSome = true)
    (hsum : legsSumOf m.stats.players = m.currentLeg) :
    Inv (setupNextLeg m) := by
  unfold setupNextLeg
  dsimp only
  set nsi := (((match m.legStarters.get? (m.currentLeg + 1 - 2) with
      | some sid => intFindIdx m.players sid
      | none => -1) + 1) % (m.players.length : Int)).toNat with hnsi
  have hns : nsi < m.players.length := by
    rw [hnsi]
    exact toNat_emod_lt _ _ hlen
  have hid : (m.players.getD nsi dummyPlayer).id = (m.players.get ⟨nsi, hns⟩).id := by
    rw [getD_elem _ _ _ hns]
  refine ⟨⟨?_, ?_⟩, ?_, ?_, ?_⟩
  · dsimp only
    simpa using hns
  · intro j hj
    dsimp only at hj ⊢
    simp only [List.length_map] at hj
    simp only [List.get_eq_getElem, List.getElem_map]
    constructor
    · intro hb
      have hbe : m.players[j].id = (m.players.getD nsi dummyPlayer).id := by simpa using hb
      rw [hid] at hbe
      exact nodup_id_getElem h2 hj hns (by simpa using hbe)
    · intro hje
      subst hje
      simp [List.getElem?_eq_getElem hns]
  · dsimp only
    rw [List.map_map]
    exact h2
  · intro p hp
    dsimp only at hp ⊢
    rcases List.mem_map.mp hp with ⟨q, hq, he⟩
    rw [← he]
    exact h3 q hq
  · intro hst
    rw [statsLegsWonSum_eq]
    dsimp only
    omega

end Darts

namespace Darts

/-- `moveToNextPlayer` preserves the invariant: the turn commit keeps
ids, stats keys and the legs-won total, and the rotation deactivates the
old index and activates exactly the new one. -/
theorem inv_moveToNextPlayer (m : Match) (hI : Inv m) : Inv (moveToNextPlayer m) := by
  obtain ⟨⟨hlen, hact⟩, h2, h3, h4⟩ := hI
  have hlen0 : 0 < m.players.length := Nat.lt_of_le_of_lt (Nat.zero_le _) hlen
  have hni : (m.activePlayerIndex + 1) % m.players.length < m.players.length :=
    Nat.mod_lt _ hlen0
  unfold moveToNextPlayer
  dsimp only
  simp only [List.length_set]
  set cur := m.players.getD m.activePlayerIndex dummyPlayer with hcur
  refine ⟨⟨?_, ?_⟩, ?_, ?_, ?_⟩
  · dsimp only
    simpa [List.length_set] using hni
  · intro j hj
    dsimp only at hj ⊢
    simp only [List.length_set] at hj
    simp only [List.get_eq_getElem, List.getElem_set]
    split
    · rename_i hnj
      simp [hnj]
    · rename_i hnj
      split
      · rename_i hij
        exact iff_of_false (by simp) (fun h => hnj h.symm)
      · rename_i hij
        have ha := hact j hj
        simp only [List.get_eq_getElem] at ha
        rw [ha]
        exact iff_of_false (fun h => hij h.symm) (fun h => hnj h.symm)
  · dsimp only
    rw [map_id_set_mod]
    · rw [map_id_set_mod]
      · exact h2
      · exact hlen
      · rfl
    · simpa using hni
    · rfl
  · dsimp only
    apply keys_of_map_id_eq (l := m.players)
    · rw [map_id_set_mod]
      · rw [map_id_set_mod]
        · exact hlen
        · rfl
      · simpa using hni
      · rfl
    · intro p hp
      cases hmg : mapGet m.stats.players cur.id with
      | none =>
        simp only [hmg]
        exact h3 p hp
      | some ps =>
        simp only [hmg]
        exact mapGet_isSome_mapSet _ _ _ _ (h3 p hp)
  · intro hst
    rw [statsLegsWonSum_eq]
    dsimp only
    cases hmg : mapGet m.stats.players cur.id with
    | none =>
      simp only [hmg]
      have h4' := h4 hst
      rw [statsLegsWonSum_eq] at h4'
      exact h4'
    | some ps =>
      simp only [hmg]
      have hsum := legsSumOf_mapSet m.stats.players cur.id ps
        (updatePlayerTurn ps ((cur.currentTurn.map (fun t => t.score)).sum)) hmg
      rw [updatePlayerTurn_legsWon] at hsum
      have h4' := h4 hst
      rw [statsLegsWonSum_eq] at h4'
      omega

end Darts

namespace Darts

/-- `startWarmup` preserves the invariant. -/
theorem inv_startWarmup {m m' : Match} (hI : Inv m)
    (h : startWarmup m = .ok m') : Inv m' := by
  unfold startWarmup at h
  split at h
  · exact absurd h (by simp)
  · rename_i hc
    have hm := Except.ok.inj h
    subst hm
    obtain ⟨h1, h2, h3, h4⟩ := hI
    refine ⟨h1, h2, h3, fun _ => h4 ?_⟩
    intro hcomp
    exact hc ⟨by rw [hcomp]; decide, by rw [hcomp]; decide⟩

/-- `endWarmup` preserves the invariant. -/
theorem inv_endWarmup {m m' : Match} (hI : Inv m)
    (h : endWarmup m = .ok m') : Inv m' := by
  unfold endWarmup at h
  split at h
  · exact absurd h (by simp)
  · rename_i hc
    have hm := Except.ok.inj h
    subst hm
    obtain ⟨h1, h2, h3, h4⟩ := hI
    exact ⟨h1, h2, h3, fun _ => h4 (by rw [not_not.mp hc]; decide)⟩

/-- `setBullWinner` preserves the invariant: it activates exactly the
found player. -/
theorem inv_setBullWinner {m m' : Match} {pid : Nat} (hI : Inv m)
    (h : setBullWinner m pid = .ok m') : Inv m' := by
  obtain ⟨⟨hlen, hact⟩, h2, h3, h4⟩ := hI
  unfold setBullWinner at h
  split at h
  · exact absurd h (by simp)
  · rename_i hst
    split at h
    · exact absurd h (by simp)
    · rename_i playerIndex hf
      have hm := Except.ok.inj h
      subst hm
      have hlt : playerIndex < m.players.length := findPlayerIdx_lt_length hf
      have hid : (m.players.getD playerIndex dummyPlayer).id = pid :=
        findPlayerIdx_id dummyPlayer hf
      rw [getD_elem _ _ _ hlt] at hid
      refine ⟨⟨by simpa using hlt, ?_⟩, ?_, ?_, ?_⟩
      · intro j hj
        dsimp only at hj ⊢
        simp only [List.length_map] at hj
        simp only [List.get_eq_getElem, List.getElem_map]
        constructor
        · intro hb
          have hbe : m.players[j].id = pid := by simpa using hb
          apply nodup_id_getElem h2 hj hlt
          simp only [List.get_eq_getElem]
          rw [hbe, ← hid]
          simp [List.get_eq_getElem]
        · intro hje
          subst hje
          simp only [List.get_eq_getElem] at hid
          simp [hid]
      · dsimp only
        rw [List.map_map]
        exact h2
      · intro p hp
        dsimp only at hp ⊢
        rcases List.mem_map.mp hp with ⟨q, hq, he⟩
        rw [← he]
        exact h3 q hq
      · intro _
        exact h4 (by rw [not_not.mp hst]; decide)

/-- `endMatch` preserves the invariant. -/
theorem inv_endMatch (m : Match) (wid : Option Nat) (hI : Inv m) :
    Inv (endMatch m wid) := by
  obtain ⟨⟨hlen, hact⟩, h2, h3, h4⟩ := hI
  unfold endMatch
  cases wid with
  | none =>
    exact ⟨⟨hlen, hact⟩, h2, h3, fun hc => absurd rfl hc⟩
  | some w =>
    dsimp only
    cases hf : findPlayerIdx m.players w with
    | none =>
      simp only [hf]
      exact ⟨⟨hlen, hact⟩, h2, h3, fun hc => absurd rfl hc⟩
    | some i =>
      simp only [hf]
      have hlt : i < m.players.length := findPlayerIdx_lt_length hf
      refine ⟨?_, ?_, ?_, fun hc => absurd rfl hc⟩
      · dsimp only
        apply oneActive_set _ _ _ _ hlt _ ⟨hlen, hact⟩
        rw [getD_elem _ _ _ hlt]
      · dsimp only
        rw [map_id_set_mod]
        · exact h2
        · exact hlt
        · rfl
      · dsimp only
        apply keys_of_map_id_eq (l := m.players)
        · rw [map_id_set_mod]
          · exact hlt
          · rfl
        · exact h3

end Darts

namespace Darts

/-- The optional-indexing form of `getD_elem`. -/
theorem getElemq_getD_eq_get (l : List Player) (i : Nat) (h : i < l.length) :
    l[i]?.getD dummyPlayer = l.get ⟨i, h⟩ := by
  rw [List.getElem?_eq_getElem h]
  rfl

/-- `processThrow` preserves the invariant across all of its branches
(valid scoring dart, game shot with and without match win, bust, and
invalid dart). -/
theorem inv_processThrow {m m' : Match} {pid : Nat} {segment : String} {score : Int}
    {r : ThrowResults} (hI : Inv m)
    (h : processThrow m pid segment score = .ok (m', r)) : Inv m' := by
  obtain ⟨⟨hlen, hact⟩, h2, h3, h4⟩ := hI
  unfold processThrow at h
  split at h
  · exact absurd h (by simp)
  · rename_i hst
    split at h
    · exact absurd h (by simp)
    · rename_i playerIndex hf
      split at h
      · exact absurd h (by simp)
      · rename_i hpi
        split at h
        · exact absurd h (by simp)
        · rename_i hd3
          have hpe := not_not.mp hpi
          subst hpe
          have hsa : m.state = MatchState.active := not_not.mp hst
          have hpair := Except.ok.inj h
          have hm' : m' = (processThrowBody m m.activePlayerIndex pid segment score).1 := by
            rw [hpair]
          subst hm'
          clear h hpair
          have hpid : (m.players.getD m.activePlayerIndex dummyPlayer).id = pid :=
            findPlayerIdx_id dummyPlayer hf
          have hmem : m.players.get ⟨m.activePlayerIndex, hlen⟩ ∈ m.players :=
            List.get_mem _ _ hlen
          have hsome : (mapGet m.stats.players pid).isSome = true := by
            have hk := h3 _ hmem
            rwa [← getD_elem _ _ _ hlen, hpid] at hk
          have hc4 : m.state ≠ MatchState.completed := by
            rw [hsa]
            decide
          unfold processThrowBody
          dsimp only
          simp only [List.getD, List.get?_eq_getElem?] at hpid ⊢
          set p := m.players[m.activePlayerIndex]?.getD dummyPlayer with hp
          set vr := validateX01Throw p.score segment score p.currentTurn.length
            m.settings.toValidatorOptions with hvr
          by_cases hv : (vr.valid && !vr.bust) = true
          · by_cases hgs : vr.gameShot = true
            · -- game shot: leg win, possibly match win
              cases hmg : mapGet m.stats.players pid with
              | none =>
                rw [hmg] at hsome
                simp at hsome
              | some ps =>
                simp only [hv, hgs, hmg, eq_self_iff_true, if_true]
                split
                · rename_i hwin
                  dsimp only
                  simp only [eq_self_iff_true, or_true, if_true, Bool.not_true,
                    Bool.false_eq_true, if_false]
                  refine ⟨?_, ?_, ?_, fun hc => absurd rfl hc⟩
                  · apply oneActive_set _ _ _ _ hlen ?_ ⟨hlen, hact⟩
                    dsimp only
                    rw [hp, getElemq_getD_eq_get _ _ hlen]
                  · dsimp only
                    rw [map_id_set]
                    · exact h2
                    · exact hlen
                    · dsimp only
                      rw [hp, getElemq_getD_eq_get _ _ hlen]
                  · dsimp only
                    apply keys_of_map_id_eq (l := m.players)
                    · rw [map_id_set]
                      · exact hlen
                      · dsimp only
                        rw [hp, getElemq_getD_eq_get _ _ hlen]
                    · intro pl hpl
                      exact mapGet_isSome_mapSet _ _ _ _ (h3 pl hpl)
                · rename_i hwin
                  dsimp only
                  simp only [eq_self_iff_true, or_true, if_true, Bool.not_true,
                    Bool.false_eq_true, if_false]
                  apply inv_setupNextLeg
                  · dsimp only
                    simp only [List.length_set]
                    omega
                  · dsimp only
                    rw [map_id_set]
                    · exact h2
                    · exact hlen
                    · dsimp only
                      rw [hp, getElemq_getD_eq_get _ _ hlen]
                  · dsimp only
                    apply keys_of_map_id_eq (l := m.players)
                    · rw [map_id_set]
                      · exact hlen
                      · dsimp only
                        rw [hp, getElemq_getD_eq_get _ _ hlen]
                    · intro pl hpl
                      exact mapGet_isSome_mapSet _ _ _ _ (h3 pl hpl)
                  · dsimp only
                    have hsum := legsSumOf_mapSet m.stats.players pid ps
                      (updateLegWin ps (p.dartsThrown + 1)) hmg
                    rw [updateLegWin_legsWon] at hsum
                    have h4' := h4 hc4
                    rw [statsLegsWonSum_eq] at h4'
                    omega
            · -- valid scoring dart, no game shot
              have hgs' : vr.gameShot = false := Bool.eq_false_iff.mpr hgs
              simp only [hv, hgs', eq_self_iff_true, if_true, Bool.false_eq_true,
                if_false, or_false]
              have hm1 : Inv { m with players := m.players.set m.activePlayerIndex { p with score := vr.newScore.getD p.score, currentTurn := p.currentTurn ++ [{ playerId := pid, round := m.round, throwIndex := p.currentTurn.length + 1, segment := segment, score := score }], dartsThrown := p.dartsThrown + 1 } } := by
                refine ⟨?_, ?_, ?_, fun hc => h4 hc⟩
                · apply oneActive_set _ _ _ _ hlen ?_ ⟨hlen, hact⟩
                  dsimp only
                  rw [hp, getElemq_getD_eq_get _ _ hlen]
                · dsimp only
                  rw [map_id_set]
                  · exact h2
                  · exact hlen
                  · dsimp only
                    rw [hp, getElemq_getD_eq_get _ _ hlen]
                · dsimp only
                  apply keys_of_map_id_eq (l := m.players)
                  · rw [map_id_set]
                    · exact hlen
                    · dsimp only
                      rw [hp, getElemq_getD_eq_get _ _ hlen]
                  · exact h3
              by_cases hd2 : p.currentTurn.length = 2
              · rw [if_pos hd2]
                dsimp only
                simp only [Bool.not_false, if_true]
                exact inv_moveToNextPlayer _ hm1
              · rw [if_neg hd2]
                dsimp only
                exact hm1
          · -- rejected by the validator: bust or invalid
            have hv' : (vr.valid && !vr.bust) = false := Bool.eq_false_iff.mpr hv
            simp only [hv', Bool.false_eq_true, if_false]
            by_cases hb : vr.bust = true
            · -- bust
              cases hmg : mapGet m.stats.players pid with
              | none =>
                rw [hmg] at hsome
                simp at hsome
              | some ps =>
                simp only [hb, hmg, eq_self_iff_true, if_true, Bool.false_eq_true,
                  or_false]
                have hm1 : Inv { m with players := m.players.set m.activePlayerIndex { p with score := p.originalScore, currentTurn := p.currentTurn ++ [{ playerId := pid, round := m.round, throwIndex := p.currentTurn.length + 1, segment := segment, score := score }], dartsThrown := p.dartsThrown + 1 }, stats := { m.stats with players := mapSet m.stats.players pid { ps with busts := ps.busts + 1 } } } := by
                  refine ⟨?_, ?_, ?_, ?_⟩
                  · apply oneActive_set _ _ _ _ hlen ?_ ⟨hlen, hact⟩
                    dsimp only
                    rw [hp, getElemq_getD_eq_get _ _ hlen]
                  · dsimp only
                    rw [map_id_set]
                    · exact h2
                    · exact hlen
                    · dsimp only
                      rw [hp, getElemq_getD_eq_get _ _ hlen]
                  · dsimp only
                    apply keys_of_map_id_eq (l := m.players)
                    · rw [map_id_set]
                      · exact hlen
                      · dsimp only
                        rw [hp, getElemq_getD_eq_get _ _ hlen]
                    · intro pl hpl
                      exact mapGet_isSome_mapSet _ _ _ _ (h3 pl hpl)
                  · intro hc
                    rw [statsLegsWonSum_eq]
                    dsimp only
                    have hsum := legsSumOf_mapSet m.stats.players pid ps
                      { ps with busts := ps.busts + 1 } hmg
                    have h4' := h4 hc4
                    rw [statsLegsWonSum_eq] at h4'
                    dsimp only at hsum
                    omega
                by_cases hd2 : p.currentTurn.length = 2
                · rw [if_pos hd2]
                  dsimp only
                  simp only [Bool.not_false, if_true]
                  exact inv_moveToNextPlayer _ hm1
                · rw [if_neg hd2]
                  dsimp only
                  exact hm1
            · -- invalid throw: recorded but nothing else happens
              have hb' : vr.bust = false := Bool.eq_false_iff.mpr hb
              simp only [hb', Bool.false_eq_true, if_false, or_false]
              have hm1 : Inv { m with players := m.players.set m.activePlayerIndex { p with currentTurn := p.currentTurn ++ [{ playerId := pid, round := m.round, throwIndex := p.currentTurn.length + 1, segment := segment, score := score }], dartsThrown := p.dartsThrown + 1 } } := by
                refine ⟨?_, ?_, ?_, fun hc => h4 hc⟩
                · apply oneActive_set _ _ _ _ hlen ?_ ⟨hlen, hact⟩
                  dsimp only
                  rw [hp, getElemq_getD_eq_get _ _ hlen]
                · dsimp only
                  rw [map_id_set]
                  · exact h2
                  · exact hlen
                  · dsimp only
                    rw [hp, getElemq_getD_eq_get _ _ hlen]
                · dsimp only
                  apply keys_of_map_id_eq (l := m.players)
                  · rw [map_id_set]
                    · exact hlen
                    · dsimp only
                      rw [hp, getElemq_getD_eq_get _ _ hlen]
                  · exact h3
              by_cases hd2 : p.currentTurn.length = 2
              · rw [if_pos hd2]
                dsimp only
                simp only [Bool.not_false, if_true]
                exact inv_moveToNextPlayer _ hm1
              · rw [if_neg hd2]
                dsimp only
                exact hm1

end Darts

namespace Darts

/-- Every reachable match state satisfies the invariant. -/
theorem inv_of_reachable {m : Match} (h : Reachable m) : Inv m := by
  induction h with
  | created hnd hcm => exact inv_created hnd hcm
  | warmedUp _ hop ih => exact inv_startWarmup ih hop
  | warmupEnded _ hop ih => exact inv_endWarmup ih hop
  | bullSet _ hop ih => exact inv_setBullWinner ih hop
  | thrown _ hop ih => exact inv_processThrow ih hop
  | switched _ ih => exact inv_moveToNextPlayer _ ih
  | ended _ ih => exact inv_endMatch _ _ ih

/-- A list with exactly the `i`-th element active has exactly one active
element. -/
theorem oneActive_count (l : List Player) : ∀ (i : Nat), OneActive l i →
    (l.filter (fun q => q.isActive)).length = 1 := by
  induction l with
  | nil =>
    intro i h
    exact absurd h.1 (by simp)
  | cons a t ih =>
    intro i h
    obtain ⟨hi, hall⟩ := h
    cases i with
    | zero =>
      have ha : a.isActive = true := (hall 0 (Nat.succ_le_succ (Nat.zero_le _))).mpr rfl
      have ht : t.filter (fun q => q.isActive) = [] := by
        rw [List.filter_eq_nil_iff]
        intro x hx
        obtain ⟨j, hj, rfl⟩ := List.mem_iff_getElem.mp hx
        intro hxa
        have hj1 : j + 1 < (a :: t).length := by simpa using Nat.succ_lt_succ hj
        have hcontra := (hall (j + 1) hj1).mp (by simpa using hxa)
        exact absurd hcontra (by omega)
      simp [List.filter_cons, ha, ht]
    | succ k =>
      have hk : k < t.length := by simpa using hi
      have ha : a.isActive = false := by
        cases hab : a.isActive
        · rfl
        · exact absurd ((hall 0 (Nat.succ_le_succ (Nat.zero_le _))).mp hab) (by omega)
      have hone : OneActive t k := by
        refine ⟨hk, ?_⟩
        intro j hj
        have hs := hall (j + 1) (by simpa using Nat.succ_lt_succ hj)
        exact hs.trans (by constructor <;> omega)
      have hrec := ih k hone
      simp [List.filter_cons, ha, hrec]

/-- `runThrows` keeps the match reachable. -/
theorem reachable_runThrows {ts : List (Nat × String × Int)} {m m' : Match}
    (hr : Reachable m) (h : runThrows m ts = .ok m') : Reachable m' := by
  induction ts generalizing m with
  | nil =>
    unfold runThrows at h
    simp only [List.foldlM_nil] at h
    rw [show m' = m from (Except.ok.inj h).symm]
    exact hr
  | cons t ts ih =>
    unfold runThrows at h ih
    simp only [List.foldlM_cons] at h
    cases hp : processThrow m t.1 t.2.1 t.2.2 with
    | error e =>
      rw [hp] at h
      simp only [Except.map, bind, Except.bind] at h
      exact absurd h (by simp)
    | ok x =>
      rw [hp] at h
      simp only [Except.map, bind, Except.bind] at h
      exact ih (Reachable.thrown hr hp) h

end Darts

namespace Darts

/-- C3 amended: in every match state reachable through the public
operations (starting from a creation with distinct player ids, and with
the undefined `this.settings` read repaired, see C9), exactly one player
has `isActive = true` — in every machine state, including `pending`,
`warmup`, `bullshot` and `completed`, not only in `active`.  (The
claim's "no player is active outside the `active` state" is refuted by
the counterexample: a freshly created pending match already has its
first player active.) -/
theorem c3_exactly_one_active_amended {m : Match} (h : Reachable m) :
    activeCount m = 1 := by
  have hI := inv_of_reachable h
  exact oneActive_count m.players m.activePlayerIndex hI.1

/-- C6 amended: while the match is not completed, the legs-won total of
the per-player Statistics records is `currentLeg - 1` in every reachable
state.  (The claim's invariant over the players' `legsWon` fields is
refuted by the counterexample: the game shot increments only the
Statistics record, never `Player.legsWon`.) -/
theorem c6_stats_legs_invariant_amended {m : Match} (h : Reachable m)
    (hne : m.state ≠ MatchState.completed) :
    statsLegsWonSum m + 1 = m.currentLeg :=
  (inv_of_reachable h).2.2.2 hne

end Darts

namespace Darts

/-- The freshly created fixture match, extracted from `Except`. -/
def createdExample : Match :=
  match createMatchRepaired none 1 [pm1, pm2] "x01" 2 startSettings with
  | .ok m => m
  | .error _ => dummyMatch

/-- The fixture match in warmup. -/
def warmupExample : Match :=
  match startWarmup createdExample with
  | .ok m => m
  | .error _ => dummyMatch

/-- The fixture match at the bull shot. -/
def bullshotExample : Match :=
  match endWarmup warmupExample with
  | .ok m => m
  | .error _ => dummyMatch

/-- Witness for the amended C3: the started two-player fixture match is
reachable and has exactly one active player. -/
theorem c3_exactly_one_active_amended_witness : activeCount activeExample = 1 := by
  have hr1 : Reachable createdExample :=
    @Reachable.created 1 [pm1, pm2] "x01" 2 startSettings createdExample
      (by decide) (by rfl)
  have hr2 : Reachable warmupExample :=
    @Reachable.warmedUp createdExample warmupExample hr1 (by rfl)
  have hr3 : Reachable bullshotExample :=
    @Reachable.warmupEnded warmupExample bullshotExample hr2 (by rfl)
  have hr : Reachable activeExample :=
    @Reachable.bullSet bullshotExample activeExample 1 hr3 (by rfl)
  exact c3_exactly_one_active_amended hr

/-- Witness for the amended C6: after player 1's leg win the fixture
match is reachable, not completed, and its Statistics legs-won total (1)
is one less than `currentLeg` (2). -/
theorem c6_stats_legs_invariant_amended_witness :
    statsLegsWonSum legWinExample.1 + 1 = legWinExample.1.currentLeg := by
  have hr1 : Reachable createdExample :=
    @Reachable.created 1 [pm1, pm2] "x01" 2 startSettings createdExample
      (by decide) (by rfl)
  have hr2 : Reachable warmupExample :=
    @Reachable.warmedUp createdExample warmupExample hr1 (by rfl)
  have hr3 : Reachable bullshotExample :=
    @Reachable.warmupEnded warmupExample bullshotExample hr2 (by rfl)
  have hr4 : Reachable activeExample :=
    @Reachable.bullSet bullshotExample activeExample 1 hr3 (by rfl)
  have hrun : runThrows activeExample legWinPrefix = .ok legWinMatch := by rfl
  have hr5 : Reachable legWinMatch := reachable_runThrows hr4 hrun
  have hr : Reachable legWinExample.1 :=
    @Reachable.thrown legWinMatch legWinExample.1 1 "DBULL" 50 legWinExample.2
      hr5 (by rfl)
  exact c6_stats_legs_invariant_amended hr (by decide)

end Darts

namespace Darts

/-! ### Persistence (C10): saveMatchToDb / loadMatch -/

/-- The `matches` row written by matchManager.ts `saveMatchToDb`
(wall-clock `timestamp` and `is_autosaved` omitted).  The schema's
`scores TEXT` column is modelled as an `Option`: `saveMatchToDb`'s
INSERT names no `scores` column, so the row always carries `none`
there. -/
structure DbMatchRow where
  boardId : Nat
  mode : String
  legsToWin : Nat
  currentLeg : Nat
  activePlayerIndex : Nat
  state : MatchState
  settings : ValidatorSettingsOptions
  scores : Option String
deriving Repr, DecidableEq

/-- A `match_players` row (joined with the player's `name` as
`loadMatch`'s query does). -/
structure DbPlayerRow where
  playerId : Nat
  name : String
  position : Nat
  originalScore : Int
deriving Repr, DecidableEq

/-- A `leg_starters` row. -/
structure DbLegStarterRow where
  legNumber : Nat
  playerId : Nat
deriving Repr, DecidableEq

/-- Everything `saveMatchToDb` persists for one match.  `saveMatchToDb`
inserts no `throws` rows (those are written per dart elsewhere), so the
snapshot itself carries no throw history. -/
structure DbSnapshot where
  matchRow : DbMatchRow
  playerRows : List DbPlayerRow
  legStarterRows : List DbLegStarterRow
deriving Repr, DecidableEq

/-- matchManager.ts `saveMatchToDb`, column for column. -/
def saveMatchToDb (m : Match) : DbSnapshot :=
  { matchRow :=
      { boardId := m.boardId, mode := m.mode, legsToWin := m.legsToWin,
        currentLeg := m.currentLeg, activePlayerIndex := m.activePlayerIndex,
        state := m.state, settings := m.settings, scores := none },
    playerRows := m.players.map (fun p =>
      { playerId := p.id, name := p.name, position := p.position,
        originalScore := p.originalScore }),
    legStarterRows := (List.range m.legStarters.length).map (fun i =>
      { legNumber := i + 1, playerId := m.legStarters.getD i 0 }) }

/-- matchManager.ts `loadMatch` applied to a snapshot written by
`saveMatchToDb`.  Because the `scores` column is never written,
`JSON.parse(match.scores || '{}')` yields the empty object, so every
`scores.…` read is `undefined` and every `||`-default fires: player
scores fall back to `settings.startingScore` (JS `||`, so a 0 falls
through to 501), `isActive`/`isWinner` to `false`, `currentLeg` and
`round` to 1, `legStarters` to `[players[0].id]`, and the statistics are
re-initialised.  `legsToWin` is read from `settings.legsToWin`, a field
the stored settings object does not have, so it falls back to 3 (the
`legs_to_win` column is never read back).  The TS object built here
omits the `legsWon` field entirely (`undefined`), modelled as 0.  With
every `isActive` false, `findIndex` yields `-1` and the fix-up marks
player 0 active.  An empty player list is not modelled: the source
would throw a `TypeError` at `players[0].id`. -/
def loadMatch (db : DbSnapshot) : Match :=
  let settings := db.matchRow.settings
  let startScore : Int :=
    if settings.startingScore = 0 then 501 else settings.startingScore
  let players : List Player := db.playerRows.map (fun mp =>
    { id := mp.playerId, name := mp.name, position := mp.position,
      score := startScore, isActive := false, isWinner := false,
      history := [], currentTurn := [], originalScore := startScore,
      dartsThrown := 0, legsWon := 0 })
  let m0 : Match :=
    { boardId := db.matchRow.boardId,
      mode := db.matchRow.mode,
      players := players,
      legsToWin := 3,
      currentLeg := 1,
      legStarters := [(players.getD 0 dummyPlayer).id],
      activePlayerIndex :=
        match players.findIdx? (fun p => p.isActive) with
        | some i => i
        | none => 0,
      round := 1,
      state := db.matchRow.state,
      settings :=
        { doubleIn := settings.doubleIn, doubleOut := settings.doubleOut,
          masterOut := settings.masterOut, startingScore := startScore,
          checkoutSuggestions := settings.checkoutSuggestions },
      stats := initMatchStats (players.map (fun p => p.id)) 3 }
  match players.findIdx? (fun p => p.isActive) with
  | some _ => m0
  | none =>
    { m0 with players :=
        listWrite players 0 { (players.getD 0 dummyPlayer) with isActive := true } }

/-- C10: the persistence round trip is lossy at the fixture match in
which player 1 has just won a leg.  `saveMatchToDb` never writes the
`scores` column `loadMatch` reads its game state from, and `loadMatch`
reads `legsToWin` from a settings field that is never stored, so the
reloaded match has `currentLeg` 1 instead of 2, `legsToWin` 3 instead
of 2, leg starters `[1]` instead of `[1, 2]`, an empty throw history
instead of the six recorded darts, and freshly zeroed statistics
instead of player 1's recorded leg win. -/
theorem c10_persistence_roundtrip_lossy :
    (loadMatch (saveMatchToDb legWinExample.1)).currentLeg = 1 ∧
    legWinExample.1.currentLeg = 2 ∧
    (loadMatch (saveMatchToDb legWinExample.1)).legsToWin = 3 ∧
    legWinExample.1.legsToWin = 2 ∧
    (loadMatch (saveMatchToDb legWinExample.1)).legStarters = [1] ∧
    legWinExample.1.legStarters = [1, 2] ∧
    ((loadMatch (saveMatchToDb legWinExample.1)).players.getD 0 dummyPlayer).history.length
        = 0 ∧
    (legWinExample.1.players.getD 0 dummyPlayer).history.length = 6 ∧
    (mapGet (loadMatch (saveMatchToDb legWinExample.1)).stats.players 1).map
        (fun s => s.legsWon) = some 0 ∧
    (mapGet legWinExample.1.stats.players 1).map (fun s => s.legsWon) = some 1 := by
  exact ⟨rfl, rfl, rfl, rfl, rfl, rfl, rfl, rfl, rfl, rfl⟩

end Darts
